import Mathlib

/-!
# OpenSpace launcher window editor (`sgctedit`): a shallow embedding

Sources embedded here:

* `apps/OpenSpace/ext/launcher/src/sgctedit/windowcontrol.cpp`
* `apps/OpenSpace/ext/launcher/src/sgctedit/display.cpp`
* `modules/exoplanets/exoplanetshelper.cpp` (`createIdentifier`, `sanitizeNameString`,
  `computeHabitableZone`)

Conventions.

* A `QString` / `std::string` is a Lean `String`; only its characters matter.
* A C++ exception leaving a function is the `.error` branch of `Except`.
* A `QLineEdit`, `QCheckBox` or `QComboBox` is the value it holds; a Qt signal that is
  connected to a slot is the call of that slot, made when Qt emits the signal (that is,
  when the held value really changes).
* The numbers held by the window rectangle (`QRectF`, whose coordinates are `double`s)
  are integers: every store in the sources writes the result of `std::stoi`, or a value
  read back from the rectangle. They are modelled by `Int`; the one narrowing to `float`
  in the sources is modelled by `toFloat`.
-/

namespace OpenSpace

/-! ## `std::stoi` -/

/-- What a modelled function can fail with: the two exceptions of `std::stoi`, and an
access outside a `std::vector` (undefined behaviour in C++). -/
inductive Failure where
  | invalid_argument
  | out_of_range
  | index_out_of_bounds
deriving DecidableEq, Repr

deriving instance DecidableEq for Except

/-- Largest value of a C++ `int`. -/
def INT_MAX : Int := 2147483647

/-- Smallest value of a C++ `int`. -/
def INT_MIN : Int := -2147483648

/-- The function `isspace` of the "C" locale: space, `\t`, `\n`, `\v`, `\f`, `\r`. -/
def isspace (c : Char) : Bool :=
  c.toNat == 32 || (9 ≤ c.toNat && c.toNat ≤ 13)

/-- The function `isdigit`: the characters `0` to `9`. -/
def isdigit (c : Char) : Bool :=
  48 ≤ c.toNat && c.toNat ≤ 57

/-- Value of a decimal digit character. -/
def digitValue (c : Char) : Nat := c.toNat - 48

/-- Value of a run of decimal digits, most significant first, as `strtol` accumulates
it (here without a bound: the range check is made by `stoi`). -/
def digitsValue (ds : List Char) : Nat :=
  ds.foldl (fun acc c => 10 * acc + digitValue c) 0

/-- Splits the optional sign off the front of the text: `(negative, rest)`. -/
def takeSign : List Char → Bool × List Char
  | c :: rest =>
    if c.toNat == 45 then (true, rest)
    else if c.toNat == 43 then (false, rest)
    else (false, c :: rest)
  | [] => (false, [])

/-- The call `std::stoi(str)` (base 10, no position pointer): skips leading white space,
reads an optional sign and the longest run of digits; throws `std::invalid_argument` when
there is no digit to read and `std::out_of_range` when the value does not fit an `int`.
Characters after the digits are ignored. -/
def stoi (str : String) : Except Failure Int :=
  let afterSpace := str.toList.dropWhile isspace
  let signed := takeSign afterSpace
  let ds := signed.2.takeWhile isdigit
  if ds.isEmpty then .error .invalid_argument
  else
    let magnitude : Int := (digitsValue ds : Nat)
    let v : Int := if signed.1 then -magnitude else magnitude
    if INT_MIN ≤ v ∧ v ≤ INT_MAX then .ok v else .error .out_of_range

/-- The call `QString::number(n)` for an `int`, which is also `std::to_string(n)`: the
decimal digits of `n`, after a `-` when `n` is negative. -/
def number (n : Int) : String :=
  if n < 0 then "-" ++ Nat.repr n.natAbs else Nat.repr n.natAbs

/-! ## `QRectF`, `QRect` and the narrowing to `float` -/

/-- The Qt class `QRectF`: left edge `xp`, top edge `yp`, width `w` and height `h`. -/
structure QRectF where
  xp : Int
  yp : Int
  w : Int
  h : Int
deriving DecidableEq, Repr

namespace QRectF

/-- The method `QRectF::setWidth`. -/
def setWidth (r : QRectF) (width : Int) : QRectF := { r with w := width }

/-- The method `QRectF::setHeight`. -/
def setHeight (r : QRectF) (height : Int) : QRectF := { r with h := height }

/-- The method `QRectF::setX`, which is `setLeft`: it moves the left edge and keeps the
right edge, so the width changes by the distance moved
(`qreal diff = pos - xp; xp += diff; w -= diff;`). -/
def setX (r : QRectF) (pos : Int) : QRectF :=
  let diff := pos - r.xp
  { r with xp := r.xp + diff, w := r.w - diff }

/-- The method `QRectF::setY`, which is `setTop`: it moves the top edge and keeps the
bottom edge (`qreal diff = pos - yp; yp += diff; h -= diff;`). -/
def setY (r : QRectF) (pos : Int) : QRectF :=
  let diff := pos - r.yp
  { r with yp := r.yp + diff, h := r.h - diff }

end QRectF

/-- Number of binary digits of `n`, computed with `fuel` halvings at most. -/
def bitLengthAux : Nat → Nat → Nat
  | 0, _ => 0
  | fuel + 1, n => if n = 0 then 0 else bitLengthAux fuel (n / 2) + 1

/-- Number of binary digits of `n` (`0` for `0`). -/
def bitLength (n : Nat) : Nat := bitLengthAux n n

/-- The conversion of an integer-valued `double` to `float` and back, as in
`float prevWidth = _windowDims.width(); ... setWidth(prevWidth)`: IEEE round to nearest,
ties to even, on a significand of 24 bits. Integers of magnitude up to `2^24` are kept;
larger ones lose their low bits. (Magnitudes of `2^128` and more, which a `float` cannot
hold, do not occur: the values stored come from `int`s.) -/
def toFloat (v : Int) : Int :=
  let a := v.natAbs
  if bitLength a ≤ 24 then v
  else
    let e := bitLength a - 24
    let q := a / 2 ^ e
    let r := a % 2 ^ e
    let q' := if 2 ^ e < 2 * r ∨ (2 * r = 2 ^ e ∧ q % 2 = 1) then q + 1 else q
    v.sign * ((q' * 2 ^ e : Nat) : Int)

/-- An integer that a `float` holds exactly. -/
def floatExact (v : Int) : Prop := toFloat v = v

instance (v : Int) : Decidable (floatExact v) := by
  unfold floatExact; infer_instance

/-- The Qt class `QRect` as far as the sources read it: the `int`s returned by
`width()` and `height()`. -/
structure QRect where
  width : Int
  height : Int
  width_int : INT_MIN ≤ width ∧ width ≤ INT_MAX
  height_int : INT_MIN ≤ height ∧ height ≤ INT_MAX

/-! ## Widgets -/

/-- The Qt enumeration `Qt::CheckState`. -/
inductive CheckState where
  | Unchecked
  | PartiallyChecked
  | Checked
deriving DecidableEq, Repr

/-- The integer a `Qt::CheckState` is passed as to a slot taking `int`. -/
def CheckState.toInt : CheckState → Int
  | .Unchecked => 0
  | .PartiallyChecked => 1
  | .Checked => 2

/-- A `QComboBox` as far as the sources use it: how many items it has and which one is
current (`-1` when none is). -/
structure QComboBox where
  count : Nat
  currentIndex : Int
deriving DecidableEq, Repr

/-- The index a `QComboBox` holds after `setCurrentIndex(index)`: `index` when it names
an item, and `-1` (no current item) otherwise. -/
def QComboBox.normalize (c : QComboBox) (index : Int) : Int :=
  if 0 ≤ index ∧ index < c.count then index else -1

/-- A `QComboBox` just after `addItems` with `n` items on an empty box: the first item
inserted becomes the current one. -/
def QComboBox.withItems (n : Nat) : QComboBox :=
  { count := n, currentIndex := if n = 0 then -1 else 0 }

/-- The enumeration `ProjectionIndeces` of `windowcontrol.h`. The header is not among the
sources, so the values of its enumerators are parameters. -/
structure ProjectionIndeces where
  Planar : Int
  Fisheye : Int
  Cylindrical : Int
  Equirectangular : Int
deriving DecidableEq, Repr

/-- Which of the widgets that `onProjectionChanged` shows and hides are visible. -/
structure Visibility where
  _comboQuality : Bool
  _labelQuality : Bool
  _labelFovH : Bool
  _lineFovH : Bool
  _labelFovV : Bool
  _lineFovV : Bool
  _labelHeightOffset : Bool
  _lineHeightOffset : Bool
  _checkBoxSpoutOutput : Bool
deriving DecidableEq, Repr

/-- The conversion of an `unsigned int` to `int` (the callback takes `_monIndex` as an
`int`). -/
def toSigned (n : Nat) : Int :=
  if n % 2 ^ 32 < 2 ^ 31 then ((n % 2 ^ 32 : Nat) : Int) else ((n % 2 ^ 32 : Nat) : Int) - 2 ^ 32

/-- The conversion of an `int` to `unsigned int` (`_monIndex = newSelection`). -/
def toUnsigned (i : Int) : Nat := (i % 2 ^ 32).toNat

/-! ## `WindowControl` -/

/-- The state of a `WindowControl`. A callback (`std::function`) is modelled by whether
one is registered, together with the list of the calls made to it so far, oldest first:
the callbacks that `Display` registers act on the monitor preview only. -/
structure WindowControl where
  _nMonitors : Nat
  _monIndex : Nat
  _index : Nat
  _monitorResolutions : List QRect
  _windowDims : QRectF
  _size_x : String
  _size_y : String
  _offset_x : String
  _offset_y : String
  _comboMonitorSelect : QComboBox
  _comboMonitorSelectVisible : Bool
  _checkBoxWindowDecor : CheckState
  _checkBoxWebGui : CheckState
  _checkBoxSpoutOutput : CheckState
  _comboProjection : QComboBox
  _comboQuality : QComboBox
  visible : Visibility
  _windowChangeCallback : Bool
  _windowGuiCheckCallback : Bool
  windowChangeCalls : List (Int × Int × QRectF)
  windowGuiCheckCalls : List Nat

namespace WindowControl

/-- The statement
`if (_windowChangeCallback) { _windowChangeCallback(_monIndex, _index, _windowDims); }`. -/
def callWindowChangeCallback (s : WindowControl) : WindowControl :=
  if s._windowChangeCallback then
    { s with windowChangeCalls :=
        s.windowChangeCalls ++ [(toSigned s._monIndex, toSigned s._index, s._windowDims)] }
  else s

/-- The slot `WindowControl::onSizeXChanged`. -/
def onSizeXChanged (s : WindowControl) (newText : String) : Except Failure WindowControl := do
  let x := newText
  let s1 ← if !x.isEmpty then do
      let width ← stoi x
      pure { s with _windowDims := s._windowDims.setWidth width }
    else pure s
  pure (callWindowChangeCallback s1)

/-- The slot `WindowControl::onSizeYChanged`. -/
def onSizeYChanged (s : WindowControl) (newText : String) : Except Failure WindowControl := do
  let y := newText
  let s1 ← if !y.isEmpty then do
      let height ← stoi y
      pure { s with _windowDims := s._windowDims.setHeight height }
    else pure s
  pure (callWindowChangeCallback s1)

/-- The slot `WindowControl::onOffsetXChanged`. The body of its `try` is the inner
computation; `catch (...)` turns any failure of it into a normal return. The only
statement that throws, `std::stoi`, comes before every store, so the state at the catch
is the state at entry. -/
def onOffsetXChanged (s : WindowControl) (newText : String) : Except Failure WindowControl :=
  let xOffset := newText
  let prevWidth := toFloat s._windowDims.w
  let tryBody : Except Failure WindowControl := do
    let s1 ← if !xOffset.isEmpty then do
        let x ← stoi xOffset
        pure { s with _windowDims := (s._windowDims.setX x).setWidth prevWidth }
      else pure s
    pure (callWindowChangeCallback s1)
  match tryBody with
  | .ok s' => .ok s'
  | .error _ => .ok s

/-- The slot `WindowControl::onOffsetYChanged`; see `onOffsetXChanged`. -/
def onOffsetYChanged (s : WindowControl) (newText : String) : Except Failure WindowControl :=
  let yOffset := newText
  let prevHeight := toFloat s._windowDims.h
  let tryBody : Except Failure WindowControl := do
    let s1 ← if !yOffset.isEmpty then do
        let y ← stoi yOffset
        pure { s with _windowDims := (s._windowDims.setY y).setHeight prevHeight }
      else pure s
    pure (callWindowChangeCallback s1)
  match tryBody with
  | .ok s' => .ok s'
  | .error _ => .ok s

/-- The statement `_size_x->setText(text)`, and as well an edit of that field by the user:
the `QLineEdit` takes the text and, when it differs from the text held before, emits
`textChanged`, which the constructor connects to `onSizeXChanged`. -/
def setSizeXText (s : WindowControl) (text : String) : Except Failure WindowControl :=
  if s._size_x = text then pure s else onSizeXChanged { s with _size_x := text } text

/-- The statement `_size_y->setText(text)`; see `setSizeXText`. -/
def setSizeYText (s : WindowControl) (text : String) : Except Failure WindowControl :=
  if s._size_y = text then pure s else onSizeYChanged { s with _size_y := text } text

/-- The statement `_offset_x->setText(text)`; see `setSizeXText`. -/
def setOffsetXText (s : WindowControl) (text : String) : Except Failure WindowControl :=
  if s._offset_x = text then pure s else onOffsetXChanged { s with _offset_x := text } text

/-- The statement `_offset_y->setText(text)`; see `setSizeXText`. -/
def setOffsetYText (s : WindowControl) (text : String) : Except Failure WindowControl :=
  if s._offset_y = text then pure s else onOffsetYChanged { s with _offset_y := text } text

/-- The expression `_monitorResolutions[_monIndex]`; outside the vector it is undefined
behaviour, here a failure. -/
def selectedMonitorResolution (s : WindowControl) : Except Failure QRect :=
  match s._monitorResolutions[s._monIndex]? with
  | some r => pure r
  | none => throw .index_out_of_bounds

/-- The slot `WindowControl::onFullscreenClicked`. -/
def onFullscreenClicked (s : WindowControl) : Except Failure WindowControl := do
  let s1 ← setOffsetXText s "0"
  let s2 ← setOffsetYText s1 "0"
  let resX ← selectedMonitorResolution s2
  let s3 ← setSizeXText s2 (number resX.width)
  let resY ← selectedMonitorResolution s3
  let s4 ← setSizeYText s3 (number resY.height)
  pure { s4 with _checkBoxWindowDecor := .Unchecked }

/-- The slot `WindowControl::onWebGuiSelection`. -/
def onWebGuiSelection (s : WindowControl) (selectionState : Int) : WindowControl :=
  if s._windowGuiCheckCallback && selectionState == CheckState.Checked.toInt then
    { s with windowGuiCheckCalls := s.windowGuiCheckCalls ++ [s._index] }
  else s

/-- The statement `_checkBoxWebGui->setCheckState(state)`, and as well a click of the user
on that check box: `stateChanged` is emitted when the state differs, and is connected to
`onWebGuiSelection`. -/
def setWebGuiCheckState (s : WindowControl) (state : CheckState) : WindowControl :=
  if s._checkBoxWebGui = state then s
  else onWebGuiSelection { s with _checkBoxWebGui := state } state.toInt

/-- The method `WindowControl::uncheckWebGuiOption`. -/
def uncheckWebGuiOption (s : WindowControl) : WindowControl :=
  setWebGuiCheckState s .Unchecked

/-- The slot `WindowControl::onProjectionChanged`. -/
def onProjectionChanged (P : ProjectionIndeces) (s : WindowControl) (newSelection : Int) :
    WindowControl :=
  { s with visible :=
      { _comboQuality := newSelection != P.Planar
        _labelQuality := newSelection != P.Planar
        _labelFovH := newSelection == P.Planar
        _lineFovH := newSelection == P.Planar
        _labelFovV := newSelection == P.Planar
        _lineFovV := newSelection == P.Planar
        _labelHeightOffset := newSelection == P.Cylindrical
        _lineHeightOffset := newSelection == P.Cylindrical
        _checkBoxSpoutOutput :=
          newSelection == P.Fisheye || newSelection == P.Equirectangular } }

/-- The statement `_comboProjection->setCurrentIndex(index)`, and as well the choice of an
item by the user: `currentIndexChanged` is emitted with the new index when the current
index changes, and is connected to `onProjectionChanged`. -/
def setProjectionIndex (P : ProjectionIndeces) (s : WindowControl) (index : Int) :
    WindowControl :=
  let newIndex := s._comboProjection.normalize index
  if newIndex = s._comboProjection.currentIndex then s
  else
    onProjectionChanged P
      { s with _comboProjection := { s._comboProjection with currentIndex := newIndex } }
      newIndex

/-- The slot `WindowControl::onSpoutSelection`. -/
def onSpoutSelection (P : ProjectionIndeces) (s : WindowControl) (selectionState : Int) :
    WindowControl :=
  if selectionState == CheckState.Checked.toInt then
    let currentProjectionSelection := s._comboProjection.currentIndex
    if currentProjectionSelection != P.Equirectangular &&
        currentProjectionSelection != P.Fisheye then
      setProjectionIndex P s P.Equirectangular
    else s
  else s

/-- The statement `_checkBoxSpoutOutput->setCheckState(state)`, and as well a click of the
user on that check box; `stateChanged` is connected to `onSpoutSelection`. -/
def setSpoutCheckState (P : ProjectionIndeces) (s : WindowControl) (state : CheckState) :
    WindowControl :=
  if s._checkBoxSpoutOutput = state then s
  else onSpoutSelection P { s with _checkBoxSpoutOutput := state } state.toInt

/-- The slot `WindowControl::onMonitorChanged`. -/
def onMonitorChanged (s : WindowControl) (newSelection : Int) : WindowControl :=
  callWindowChangeCallback { s with _monIndex := toUnsigned newSelection }

/-- The choice of the item `index` of `_comboMonitorSelect` by the user, which the box
allows while it is visible: `currentIndexChanged` is emitted with the new index when the
current index changes, and is connected to `onMonitorChanged`. -/
def setMonitorIndex (s : WindowControl) (index : Int) : WindowControl :=
  let newIndex := s._comboMonitorSelect.normalize index
  if newIndex = s._comboMonitorSelect.currentIndex then s
  else
    onMonitorChanged
      { s with _comboMonitorSelect := { s._comboMonitorSelect with currentIndex := newIndex } }
      newIndex

/-- The method `WindowControl::setDimensions`, for rectangles of whole numbers. -/
def setDimensions (s : WindowControl) (dimensions : QRectF) : WindowControl :=
  { s with _windowDims := dimensions }

/-- The method `WindowControl::setWindowChangeCallback` (with a callable). -/
def setWindowChangeCallback (s : WindowControl) : WindowControl :=
  { s with _windowChangeCallback := true }

/-- The method `WindowControl::setWebGuiChangeCallback` (with a callable). -/
def setWebGuiChangeCallback (s : WindowControl) : WindowControl :=
  { s with _windowGuiCheckCallback := true }

/-- The method `WindowControl::dimensions`. -/
def dimensions (s : WindowControl) : QRectF := s._windowDims

/-- The method `WindowControl::windowSize`: both fields are read with `stoi`. -/
def windowSize (s : WindowControl) : Except Failure (Int × Int) := do
  let x ← stoi s._size_x
  let y ← stoi s._size_y
  pure (x, y)

/-- The method `WindowControl::windowPos`: both fields are read with `stoi`. -/
def windowPos (s : WindowControl) : Except Failure (Int × Int) := do
  let x ← stoi s._offset_x
  let y ← stoi s._offset_y
  pure (x, y)

/-- The method `WindowControl::isDecorated`. -/
def isDecorated (s : WindowControl) : Bool := s._checkBoxWindowDecor == .Checked

/-- The method `WindowControl::isGuiWindow`. -/
def isGuiWindow (s : WindowControl) : Bool := s._checkBoxWebGui == .Checked

/-- The method `WindowControl::isSpoutSelected`. -/
def isSpoutSelected (s : WindowControl) : Bool := s._checkBoxSpoutOutput == .Checked

/-- The method `WindowControl::projectionSelectedIndex`. -/
def projectionSelectedIndex (s : WindowControl) : Int := s._comboProjection.currentIndex

/-- The method `WindowControl::monitorNum`. -/
def monitorNum (s : WindowControl) : Nat := s._monIndex

end WindowControl

/-- The declarations of `windowcontrol.h` that the constructor reads. The header is not
among the sources, so they are parameters: the table `defaultWindowSizes`, the lengths of
the lists `_monitorNames`, `_projectionTypes` and `_qualityTypes` that fill the combo
boxes, the bound `_maxWindowSizePixels` of the validators, and the enumeration
`ProjectionIndeces`. -/
structure WindowControlHeader where
  defaultWindowSizes : List QRectF
  _monitorNames : Nat
  _projectionTypes : Nat
  _qualityTypes : Nat
  _maxWindowSizePixels : Int
  projectionIndeces : ProjectionIndeces

namespace WindowControl

/-- The constructor `WindowControl::WindowControl`. The rectangle starts as
`defaultWindowSizes[windowIndex]` and the four line edits as its numbers printed; the
decoration check box starts checked, the other two unchecked; no callback is registered.
The slots are connected at the end, so nothing runs them here. -/
def new (hdr : WindowControlHeader) (nMonitors monitorIndex windowIndex : Nat)
    (monitorDims : List QRect) : Except Failure WindowControl := do
  let dims ← match hdr.defaultWindowSizes[windowIndex]? with
    | some r => pure r
    | none => throw .index_out_of_bounds
  let monitors := QComboBox.withItems hdr._monitorNames
  pure
    { _nMonitors := nMonitors
      _monIndex := monitorIndex
      _index := windowIndex
      _monitorResolutions := monitorDims
      _windowDims := dims
      _size_x := number dims.w
      _size_y := number dims.h
      _offset_x := number dims.xp
      _offset_y := number dims.yp
      _comboMonitorSelect := { monitors with currentIndex := monitors.normalize monitorIndex }
      _comboMonitorSelectVisible := true
      _checkBoxWindowDecor := .Checked
      _checkBoxWebGui := .Unchecked
      _checkBoxSpoutOutput := .Unchecked
      _comboProjection := QComboBox.withItems hdr._projectionTypes
      _comboQuality := QComboBox.withItems hdr._qualityTypes
      visible := ⟨true, true, true, true, true, true, true, true, true⟩
      _windowChangeCallback := false
      _windowGuiCheckCallback := false
      windowChangeCalls := []
      windowGuiCheckCalls := [] }

/-- The method `WindowControl::initializeLayout` as far as it acts on the state: the
layout objects it builds hold no configuration. With more than one monitor the combo box
of monitors is put into the layout, otherwise it is hidden
(`if (_nMonitors > 1) { ... } else { _comboMonitorSelect->setVisible(false); }`). The
last statements are `_comboProjection->setCurrentIndex(0); onProjectionChanged(0);
_comboQuality->setCurrentIndex(2);`. -/
def initializeLayout (P : ProjectionIndeces) (s : WindowControl) : WindowControl :=
  let s0 := if s._nMonitors > 1 then s else { s with _comboMonitorSelectVisible := false }
  let s1 := setProjectionIndex P s0 0
  let s2 := onProjectionChanged P s1 0
  { s2 with _comboQuality := { s2._comboQuality with currentIndex := s2._comboQuality.normalize 2 } }

end WindowControl

/-! ## `Display` -/

/-- Modelled from the spec: the class `MonitorBox` (`monitorbox.h` and its source are not
among the sources). The spec gives it as an external collaborator of which only the calls
are known; the model records what the calls hand over: the number of windows displayed
(`setNumWindowsDisplayed`) and, oldest first, the rectangles delivered for each window
index (`mapWindowResolutionToWidgetCoordinates`, `windowDimensionsChanged`). -/
structure MonitorBox where
  numWindowsDisplayed : Nat
  windowRects : List (Int × QRectF)

/-- The state of a `Display`. A widget that is only shown or hidden is its visibility. -/
structure Display where
  hdr : WindowControlHeader
  nMonitors : Nat
  monitorIndex : Nat
  _toggleNumMonitorsButton : String
  _monBox : MonitorBox
  _monitorRes : List QRect
  _windowControl : List WindowControl
  _nWindowsAllocated : Nat
  _nWindowsDisplayed : Nat
  _borderFrame : Bool
  _layoutWindowWrappers : List Bool

namespace Display

/-- The method `Display::hideSecondWindow`. `_layoutWindowWrappers[1]` outside the vector
is undefined behaviour, here a failure. -/
def hideSecondWindow (d : Display) : Except Failure Display :=
  if 1 < d._layoutWindowWrappers.length then
    pure { d with
      _borderFrame := false
      _layoutWindowWrappers := d._layoutWindowWrappers.set 1 false
      _nWindowsDisplayed := 1
      _monBox := { d._monBox with numWindowsDisplayed := 1 } }
  else throw .index_out_of_bounds

/-- The method `Display::showSecondWindow`. -/
def showSecondWindow (d : Display) : Except Failure Display :=
  if 1 < d._layoutWindowWrappers.length then
    pure { d with
      _borderFrame := true
      _layoutWindowWrappers := d._layoutWindowWrappers.set 1 true
      _nWindowsDisplayed := 2
      _monBox := { d._monBox with numWindowsDisplayed := 2 } }
  else throw .index_out_of_bounds

/-- The slot `Display::toggleWindows`. -/
def toggleWindows (d : Display) : Except Failure Display :=
  if d._nWindowsDisplayed = 1 then
    showSecondWindow { d with _toggleNumMonitorsButton := "Remove 2nd window" }
  else if d._nWindowsDisplayed = 2 then
    hideSecondWindow { d with _toggleNumMonitorsButton := "Add 2nd window" }
  else pure d

/-- The method `Display::addWindowControl`. It is written against a constructor
`WindowControl(index, widget dimensions, monitor resolutions, parent)`; the two further
arguments that the constructor of `windowcontrol.cpp` takes, the number of monitors and
the monitor index, are the fields `nMonitors` and `monitorIndex` of the model. The only
callback it registers is the window change callback. -/
def addWindowControl (d : Display) : Except Failure Display :=
  if d._nWindowsAllocated < 2 then do
    let w ← WindowControl.new d.hdr d.nMonitors d.monitorIndex d._nWindowsAllocated d._monitorRes
    let w := w.setWindowChangeCallback
    pure { d with
      _windowControl := d._windowControl ++ [w]
      _monBox := { d._monBox with
        windowRects := d._monBox.windowRects ++ [((d._nWindowsAllocated : Int), w.dimensions)] }
      _nWindowsAllocated := d._nWindowsAllocated + 1 }
  else pure d

/-- The method `Display::initializeLayout` as far as it acts on the state: it lays out
`_windowControl[0]` and `_windowControl[1]`, wraps each in a widget, creates the border
frame and hides the second window. -/
def initializeLayout (d : Display) : Except Failure Display := do
  let w0 ← match d._windowControl[0]? with
    | some w => pure w
    | none => throw .index_out_of_bounds
  let d1 := { d with
    _windowControl := d._windowControl.set 0 (w0.initializeLayout d.hdr.projectionIndeces)
    _layoutWindowWrappers := d._layoutWindowWrappers ++ [true] }
  let w1 ← match d1._windowControl[1]? with
    | some w => pure w
    | none => throw .index_out_of_bounds
  let d2 := { d1 with
    _windowControl := d1._windowControl.set 1 (w1.initializeLayout d.hdr.projectionIndeces)
    _layoutWindowWrappers := d1._layoutWindowWrappers ++ [true] }
  hideSecondWindow d2

/-- The constructor `Display::Display`. The members start as a default-constructed
`Display` has them: no window control, no wrapper, both counters `0`. -/
def new (hdr : WindowControlHeader) (nMonitors monitorIndex : Nat) (monitorRes : List QRect) :
    Except Failure Display := do
  let d0 : Display :=
    { hdr := hdr
      nMonitors := nMonitors
      monitorIndex := monitorIndex
      _toggleNumMonitorsButton := "Add 2nd Window"
      _monBox := { numWindowsDisplayed := 0, windowRects := [] }
      _monitorRes := monitorRes
      _windowControl := []
      _nWindowsAllocated := 0
      _nWindowsDisplayed := 0
      _borderFrame := true
      _layoutWindowWrappers := [] }
  let d1 ← addWindowControl d0
  let d2 ← addWindowControl d1
  initializeLayout d2

/-- A click of the user on the check box "WebGUI only this window" of the window control
`i`, leaving it in `state`: the slot of that control runs; calls it makes to the GUI
callback would be served by the `Display`, which has registered none. -/
def clickWebGui (d : Display) (i : Nat) (state : CheckState) : Display :=
  match d._windowControl[i]? with
  | some w => { d with _windowControl := d._windowControl.set i (w.setWebGuiCheckState state) }
  | none => d

/-- The configuration values of every window control that the accessors of
`WindowControl` export: the rectangle, the four line edits, the monitor index, the three
check boxes and the two combo boxes. -/
def configuration (d : Display) :
    List (QRectF × String × String × String × String × Nat ×
      CheckState × CheckState × CheckState × QComboBox × QComboBox) :=
  d._windowControl.map fun w =>
    (w._windowDims, w._size_x, w._size_y, w._offset_x, w._offset_y, w._monIndex,
      w._checkBoxWindowDecor, w._checkBoxWebGui, w._checkBoxSpoutOutput,
      w._comboProjection, w._comboQuality)

end Display

namespace WindowControl

/-- The state in which a window control is handed to the user: constructed, then laid
out. -/
def initial (hdr : WindowControlHeader) (nMonitors monitorIndex windowIndex : Nat)
    (monitorDims : List QRect) : Except Failure WindowControl := do
  let s ← WindowControl.new hdr nMonitors monitorIndex windowIndex monitorDims
  pure (s.initializeLayout hdr.projectionIndeces)

/-- The states that a window control reaches from `s0` when the user, any number of times
and in any order, chooses a projection in the combo box (`setProjectionIndex`, which runs
`onProjectionChanged`) or clicks the spout check box (`setSpoutCheckState`, which runs
`onSpoutSelection`). -/
inductive ReachableByProjectionAndSpout (P : ProjectionIndeces) (s0 : WindowControl) :
    WindowControl → Prop where
  | start : ReachableByProjectionAndSpout P s0 s0
  | projection (s : WindowControl) (index : Int) :
      ReachableByProjectionAndSpout P s0 s →
      ReachableByProjectionAndSpout P s0 (setProjectionIndex P s index)
  | spout (s : WindowControl) (state : CheckState) :
      ReachableByProjectionAndSpout P s0 s →
      ReachableByProjectionAndSpout P s0 (setSpoutCheckState P s state)

end WindowControl

namespace Display

/-- An event of the user in the window control `i` of the display: the slot `event` of
that control runs, and the calls it makes to the window change callback are served by the
lambda that `addWindowControl` registered, which hands the window index and the rectangle
to the monitor box (`_monBox->windowDimensionsChanged(windowIndex, newDims)`). -/
def inWindow (d : Display) (i : Nat) (event : WindowControl → Except Failure WindowControl) :
    Except Failure Display :=
  match d._windowControl[i]? with
  | some w => do
    let w' ← event w
    let calls := w'.windowChangeCalls.drop w.windowChangeCalls.length
    pure { d with
      _windowControl := d._windowControl.set i w'
      _monBox := { d._monBox with
        windowRects := d._monBox.windowRects ++ calls.map fun call => (call.2.1, call.2.2) } }
  | none => throw .index_out_of_bounds

/-- The method `Display::addWindowControl` called `n` times in a row. -/
def addWindowControlTimes : Nat → Display → Except Failure Display
  | 0, d => pure d
  | n + 1, d => do
    let d' ← addWindowControl d
    addWindowControlTimes n d'

/-- Which window controls of the display have the GUI window flag set. -/
def guiWindows (d : Display) : List Bool := d._windowControl.map WindowControl.isGuiWindow

end Display

/-- The four line edits of a window control read, with `std::stoi`, as the numbers that
its rectangle holds. -/
def WindowControl.textsAgree (s : WindowControl) : Prop :=
  stoi s._offset_x = .ok s._windowDims.xp ∧ stoi s._offset_y = .ok s._windowDims.yp ∧
    stoi s._size_x = .ok s._windowDims.w ∧ stoi s._size_y = .ok s._windowDims.h

instance (s : WindowControl) : Decidable s.textsAgree := by
  unfold WindowControl.textsAgree; infer_instance

/-- The combo box of projections has `n` items, and the spout check box is visible
exactly when the current projection is Fisheye or Equirectangular. -/
def WindowControl.spoutBoxFollowsProjection (P : ProjectionIndeces) (n : Nat)
    (s : WindowControl) : Prop :=
  s._comboProjection.count = n ∧
    s.visible._checkBoxSpoutOutput =
      (s._comboProjection.currentIndex == P.Fisheye ||
        s._comboProjection.currentIndex == P.Equirectangular)

instance (P : ProjectionIndeces) (n : Nat) (s : WindowControl) :
    Decidable (s.spoutBoxFollowsProjection P n) := by
  unfold WindowControl.spoutBoxFollowsProjection; infer_instance

/-! ## Sequences of operations -/

namespace WindowControl

/-- The states that a window control reaches from `s0` through calls of its size handlers
`onSizeXChanged` and `onSizeYChanged`, each with a text that `std::stoi` reads as an
integer between `lo` and `hi`. With `lo = INT_MIN` and `hi = INT_MAX` these are all the
integer texts that the handlers accept. -/
inductive ReachableBySizeHandlers (lo hi : Int) (s0 : WindowControl) :
    WindowControl → Prop where
  | start : ReachableBySizeHandlers lo hi s0 s0
  | sizeX (s s' : WindowControl) (T : String) (v : Int) :
      ReachableBySizeHandlers lo hi s0 s → stoi T = .ok v → lo ≤ v → v ≤ hi →
      s.onSizeXChanged T = .ok s' → ReachableBySizeHandlers lo hi s0 s'
  | sizeY (s s' : WindowControl) (T : String) (v : Int) :
      ReachableBySizeHandlers lo hi s0 s → stoi T = .ok v → lo ≤ v → v ≤ hi →
      s.onSizeYChanged T = .ok s' → ReachableBySizeHandlers lo hi s0 s'

/-- What an operation other than the choice of a monitor leaves as it was: the monitor
index, the list of monitor resolutions, and the combo box of monitors with its
visibility. -/
@[reducible] def monitorFrame (s s' : WindowControl) : Prop :=
  s'._monIndex = s._monIndex ∧ s'._monitorResolutions = s._monitorResolutions ∧
    s'._comboMonitorSelect = s._comboMonitorSelect ∧
    s'._comboMonitorSelectVisible = s._comboMonitorSelectVisible

/-- One operation of the user on a window control that returns normally: an edit of one
of the four line edits, the choice of an item of the combo box of monitors (which the user
can make while the box is visible), the choice of a projection, a click on the spout or on
the GUI check box, or a click on the full screen button. -/
inductive Operation (P : ProjectionIndeces) (s : WindowControl) : WindowControl → Prop where
  | sizeX (T : String) (s' : WindowControl) : s.setSizeXText T = .ok s' → Operation P s s'
  | sizeY (T : String) (s' : WindowControl) : s.setSizeYText T = .ok s' → Operation P s s'
  | offsetX (T : String) (s' : WindowControl) : s.setOffsetXText T = .ok s' → Operation P s s'
  | offsetY (T : String) (s' : WindowControl) : s.setOffsetYText T = .ok s' → Operation P s s'
  | monitor (index : Int) : s._comboMonitorSelectVisible = true → 0 ≤ index →
      index < s._comboMonitorSelect.count → Operation P s (s.setMonitorIndex index)
  | projection (index : Int) : Operation P s (s.setProjectionIndex P index)
  | spout (state : CheckState) : Operation P s (s.setSpoutCheckState P state)
  | webGui (state : CheckState) : Operation P s (s.setWebGuiCheckState state)
  | fullscreen (s' : WindowControl) : s.onFullscreenClicked = .ok s' → Operation P s s'

/-- The states that a window control reaches from `s0` by any sequence of operations. -/
inductive ReachableByOperations (P : ProjectionIndeces) (s0 : WindowControl) :
    WindowControl → Prop where
  | start : ReachableByOperations P s0 s0
  | step (s s' : WindowControl) :
      ReachableByOperations P s0 s → Operation P s s' → ReachableByOperations P s0 s'

end WindowControl

namespace Display

/-- The states that a display reaches from `d0`: by `toggleWindows`, by an event in one of
its window controls, by a click on a GUI check box, and by `addWindowControl`. -/
inductive Reachable (d0 : Display) : Display → Prop where
  | start : Reachable d0 d0
  | toggle (d d' : Display) : Reachable d0 d → d.toggleWindows = .ok d' → Reachable d0 d'
  | window (d d' : Display) (i : Nat) (event : WindowControl → Except Failure WindowControl) :
      Reachable d0 d → d.inWindow i event = .ok d' → Reachable d0 d'
  | webGui (d : Display) (i : Nat) (state : CheckState) :
      Reachable d0 d → Reachable d0 (d.clickWebGui i state)
  | add (d d' : Display) : Reachable d0 d → d.addWindowControl = .ok d' → Reachable d0 d'

end Display

/-! ## `exoplanetshelper.cpp` -/

namespace exoplanets

/-- The double quote character. -/
def doubleQuote : Char := Char.ofNat 34

/-- The apostrophe character. -/
def apostrophe : Char := Char.ofNat 39

/-- The call `std::replace(s.begin(), s.end(), oldValue, newValue)` on a string: every
character equal to `oldValue` becomes `newValue`. (A `std::string` holds bytes; the
characters replaced and removed here are ASCII, which no byte of another UTF-8 character
equals, so the model works on characters.) -/
def replace (s : String) (oldValue newValue : Char) : String :=
  ⟨s.toList.map fun c => if c = oldValue then newValue else c⟩

/-- The statement `s.erase(remove(s.begin(), s.end(), value), s.end())`: the characters
other than `value`, in their order. -/
def eraseRemove (s : String) (value : Char) : String :=
  ⟨s.toList.filter fun c => c != value⟩

/-- The function `sanitizeNameString`. -/
def sanitizeNameString (s : String) : String :=
  eraseRemove (eraseRemove s doubleQuote) apostrophe

/-- The function `createIdentifier`. -/
def createIdentifier (name : String) : String :=
  sanitizeNameString (replace (replace name ' ' '_') '.' '-')

/-- The identifier as the claim words it: every space replaced by `_` and every `.` by
`-`, then every double quote and apostrophe deleted, the other characters kept in their
order. -/
def identifierAsClaimed (name : String) : String :=
  ⟨(name.toList.map fun c => if c = ' ' then '_' else if c = '.' then '-' else c).filter
    fun c => c != doubleQuote && c != apostrophe⟩

/-- The structure `Coefficients` of `computeHabitableZone`, its numbers read as exact
rationals. -/
structure Coefficients where
  seffSun : ℚ
  a : ℚ
  b : ℚ
  c : ℚ
  d : ℚ

/-- The first row of the table `coefficients`: inner boundary, runaway greenhouse. -/
def runawayGreenhouse : Coefficients :=
  ⟨1.10700E+00, 1.33200E-04, 1.58000E-08, -8.30800E-12, -1.93100E-15⟩

/-- The second row of the table `coefficients`: outer boundary, maximum greenhouse. -/
def maximumGreenhouse : Coefficients :=
  ⟨3.56000E-01, 6.17100E-05, 1.69800E-09, -3.19800E-12, -5.57500E-16⟩

/-- The effective flux `seff` that the loop of `computeHabitableZone` computes from a row
of coefficients and `tstar = teff - 5780`. -/
def seff (coeffs : Coefficients) (tstar : ℚ) : ℚ :=
  let tstar2 := tstar * tstar
  coeffs.seffSun + (coeffs.a * tstar) + (coeffs.b * tstar2) +
    (coeffs.c * tstar * tstar2) + (coeffs.d * tstar2 * tstar2)

/-- The squares of the two distances that `computeHabitableZone` returns, inner first: the
function returns their square roots (`std::sqrt(x)` in the first branch,
`std::pow(x, 0.5f)` in the loop). -/
def computeHabitableZoneSquared (teff luminosity : ℚ) : ℚ × ℚ :=
  if teff > 8000 ∨ teff < 2000 then
    (luminosity / 1.1, luminosity / 0.53)
  else
    let tstar := teff - 5780
    (luminosity / seff runawayGreenhouse tstar, luminosity / seff maximumGreenhouse tstar)

end exoplanets

/-! ## Example values -/

/-- An example of the declarations of `windowcontrol.h`: two default rectangles, two
monitor names, five projection types with `Planar = 0`, `Fisheye = 1`, `Cylindrical = 3`
and `Equirectangular = 4`, ten quality types. -/
def exampleHeader : WindowControlHeader :=
  { defaultWindowSizes := [⟨50, 50, 1280, 720⟩, ⟨900, 250, 1280, 720⟩]
    _monitorNames := 2
    _projectionTypes := 5
    _qualityTypes := 10
    _maxWindowSizePixels := 10000
    projectionIndeces := ⟨0, 1, 3, 4⟩ }

/-- An example monitor resolution, 1920 by 1080. -/
def exampleMonitor : QRect := ⟨1920, 1080, by decide, by decide⟩

/-- An example window control: the first window of `exampleHeader` on one monitor, with a
window change callback registered. -/
def exampleWindow : WindowControl :=
  { _nMonitors := 1
    _monIndex := 0
    _index := 0
    _monitorResolutions := [exampleMonitor]
    _windowDims := ⟨50, 50, 1280, 720⟩
    _size_x := "1280"
    _size_y := "720"
    _offset_x := "50"
    _offset_y := "50"
    _comboMonitorSelect := ⟨2, 0⟩
    _comboMonitorSelectVisible := false
    _checkBoxWindowDecor := .Checked
    _checkBoxWebGui := .Unchecked
    _checkBoxSpoutOutput := .Unchecked
    _comboProjection := ⟨5, 0⟩
    _comboQuality := ⟨10, 2⟩
    visible := ⟨false, false, true, true, true, true, false, false, false⟩
    _windowChangeCallback := true
    _windowGuiCheckCallback := false
    windowChangeCalls := []
    windowGuiCheckCalls := [] }

/-- The example window with the width 16777217 (`2^24 + 1`), the least positive whole
number that a `float` does not hold. -/
def wideWindow : WindowControl :=
  { exampleWindow with
    _windowDims := ⟨50, 50, 16777217, 720⟩
    _size_x := "16777217" }

/-- The example window after `onSizeXChanged` was called with the text `5`: its width
is 5, and the callback was called once with the new rectangle. -/
def narrowWindow : WindowControl :=
  { exampleWindow with
    _windowDims := ⟨50, 50, 5, 720⟩
    windowChangeCalls := [(0, 0, ⟨50, 50, 5, 720⟩)] }

/-- The example window as `WindowControl.initial` hands it over: constructed from the
example header and laid out, with no callback registered yet. -/
def exampleInitial : WindowControl :=
  { exampleWindow with _windowChangeCallback := false }

/-- The example window constructed for two monitors and laid out: the combo box of
monitors is visible and has the two items of the example header. -/
def exampleTwoMonitors : WindowControl :=
  { exampleInitial with
    _nMonitors := 2
    _monitorResolutions := [exampleMonitor, exampleMonitor]
    _comboMonitorSelectVisible := true }

/-- The first window control of the example display, as `Display::Display` leaves it. -/
def exampleFirst : WindowControl := exampleWindow

/-- The second window control of the example display, as `Display::Display` leaves it. -/
def exampleSecond : WindowControl :=
  { exampleWindow with
    _index := 1
    _windowDims := ⟨900, 250, 1280, 720⟩
    _offset_x := "900"
    _offset_y := "250" }

/-- The example display: `Display::Display` with the example header, one monitor and the
monitor index `0`. It shows one window. -/
def exampleDisplay : Display :=
  { hdr := exampleHeader
    nMonitors := 1
    monitorIndex := 0
    _toggleNumMonitorsButton := "Add 2nd Window"
    _monBox :=
      { numWindowsDisplayed := 1
        windowRects := [(0, ⟨50, 50, 1280, 720⟩), (1, ⟨900, 250, 1280, 720⟩)] }
    _monitorRes := [exampleMonitor]
    _windowControl := [exampleFirst, exampleSecond]
    _nWindowsAllocated := 2
    _nWindowsDisplayed := 1
    _borderFrame := false
    _layoutWindowWrappers := [true, false] }

/-- The example display showing both windows, after the width of the second window was
edited to 777. -/
def exampleDisplayTwo : Display :=
  { exampleDisplay with
    _toggleNumMonitorsButton := "Remove 2nd window"
    _monBox :=
      { numWindowsDisplayed := 2
        windowRects := [(0, ⟨50, 50, 1280, 720⟩), (1, ⟨900, 250, 1280, 720⟩),
          (1, ⟨900, 250, 777, 720⟩)] }
    _windowControl :=
      [exampleFirst,
        { exampleSecond with
          _windowDims := ⟨900, 250, 777, 720⟩
          _size_x := "777"
          windowChangeCalls := [(0, 1, ⟨900, 250, 777, 720⟩)] }]
    _nWindowsDisplayed := 2
    _borderFrame := true
    _layoutWindowWrappers := [true, true] }

/-! ## Reading back a printed `int` -/

theorem digitChar_toNat (d : Nat) (hd : d < 10) : (Nat.digitChar d).toNat = 48 + d := by
  interval_cases d <;> rfl

theorem isdigit_digitChar (d : Nat) (hd : d < 10) : isdigit (Nat.digitChar d) = true := by
  interval_cases d <;> rfl

theorem digitValue_digitChar (d : Nat) (hd : d < 10) : digitValue (Nat.digitChar d) = d := by
  interval_cases d <;> rfl

theorem digitsValue_snoc (pre : List Char) (c : Char) :
    digitsValue (pre ++ [c]) = 10 * digitsValue pre + digitValue c := by
  simp [digitsValue, List.foldl_append]

/-- The digits that `Nat.toDigitsCore` puts in front of its accumulator are a non-empty
run of decimal digits whose value is the number printed. -/
theorem toDigitsCore_spec (fuel : Nat) : ∀ (n : Nat) (ds : List Char), n < fuel →
    ∃ pre : List Char, Nat.toDigitsCore 10 fuel n ds = pre ++ ds ∧ pre ≠ [] ∧
      (∀ c ∈ pre, isdigit c = true) ∧ digitsValue pre = n := by
  induction fuel with
  | zero => intro n ds h; omega
  | succ fuel ih =>
    intro n ds h
    unfold Nat.toDigitsCore
    by_cases h0 : n / 10 = 0
    · refine ⟨[Nat.digitChar (n % 10)], by simp [h0], by simp, ?_, ?_⟩
      · intro c hc
        simp at hc
        subst hc
        exact isdigit_digitChar _ (Nat.mod_lt _ (by decide))
      · have hd := digitValue_digitChar (n % 10) (Nat.mod_lt n (by decide))
        have h1 : n % 10 = n := by omega
        simp only [digitsValue, List.foldl, hd]
        omega
    · obtain ⟨pre, hpre, _, hdig, hval⟩ :=
        ih (n / 10) (Nat.digitChar (n % 10) :: ds) (by omega)
      refine ⟨pre ++ [Nat.digitChar (n % 10)], by simp [h0, hpre], by simp, ?_, ?_⟩
      · intro c hc
        rcases List.mem_append.mp hc with hc | hc
        · exact hdig c hc
        · simp at hc
          subst hc
          exact isdigit_digitChar _ (Nat.mod_lt _ (by decide))
      · rw [digitsValue_snoc, hval, digitValue_digitChar _ (Nat.mod_lt n (by decide : 10 > 0))]
        omega

/-- The text `Nat.repr n` is a non-empty run of decimal digits of value `n`. -/
theorem repr_spec (n : Nat) :
    (Nat.repr n).toList ≠ [] ∧ (∀ c ∈ (Nat.repr n).toList, isdigit c = true) ∧
      digitsValue (Nat.repr n).toList = n := by
  obtain ⟨pre, hpre, hne, hdig, hval⟩ := toDigitsCore_spec (n + 1) n [] (by omega)
  have h : (Nat.repr n).toList = pre := by
    show Nat.toDigits 10 n = pre
    simpa [Nat.toDigits] using hpre
  rw [h]
  exact ⟨hne, hdig, hval⟩

theorem isdigit_not_isspace (c : Char) (h : isdigit c = true) : isspace c = false := by
  simp only [isdigit, Bool.and_eq_true, decide_eq_true_eq] at h
  have h32 : (c.toNat == 32) = false := by simp; omega
  have h13 : decide (c.toNat ≤ 13) = false := by simp; omega
  simp [isspace, h32, h13]

/-- Reading a non-empty run of decimal digits gives its value, when that fits an `int`. -/
theorem stoi_digits (l : List Char) (hne : l ≠ []) (hdig : ∀ c ∈ l, isdigit c = true)
    (hmax : (digitsValue l : Int) ≤ INT_MAX) :
    stoi (String.mk l) = .ok (digitsValue l : Int) := by
  obtain ⟨c, t, rfl⟩ := List.exists_cons_of_ne_nil hne
  have hc : isdigit c = true := hdig c (by simp)
  have hsp : isspace c = false := isdigit_not_isspace c hc
  have h45 : (c.toNat == 45) = false := by
    simp only [isdigit, Bool.and_eq_true, decide_eq_true_eq] at hc
    simp; omega
  have h43 : (c.toNat == 43) = false := by
    simp only [isdigit, Bool.and_eq_true, decide_eq_true_eq] at hc
    simp; omega
  have htw : List.takeWhile isdigit (c :: t) = c :: t := List.takeWhile_eq_self_iff.mpr hdig
  have hlo : INT_MIN ≤ (digitsValue (c :: t) : Int) := by
    have : (0 : Int) ≤ (digitsValue (c :: t) : Int) := Int.ofNat_nonneg _
    unfold INT_MIN; omega
  simp only [stoi, String.toList, List.dropWhile, hsp, takeSign, h45, h43]
  simp [hlo, hmax, htw, hc]

/-- Reading `-` followed by a non-empty run of decimal digits gives minus its value, when
that fits an `int`. -/
theorem stoi_minus_digits (l : List Char) (hne : l ≠ []) (hdig : ∀ c ∈ l, isdigit c = true)
    (hmin : INT_MIN ≤ -(digitsValue l : Int)) :
    stoi (String.mk ('-' :: l)) = .ok (-(digitsValue l : Int)) := by
  have htw : List.takeWhile isdigit l = l := List.takeWhile_eq_self_iff.mpr hdig
  have hhi : -(digitsValue l : Int) ≤ INT_MAX := by
    have : (0 : Int) ≤ (digitsValue l : Int) := Int.ofNat_nonneg _
    unfold INT_MAX; omega
  have hsp : isspace '-' = false := by decide
  have h45 : (('-' : Char).toNat == 45) = true := by decide
  simp only [stoi, String.toList, List.dropWhile, hsp, takeSign, h45, htw]
  cases l with
  | nil => exact absurd rfl hne
  | cons c t => simp [hmin, hhi, htw, hdig c (by simp)]

/-- Printing an `int` and reading it back: `std::stoi` of the text that `QString::number`
(or `std::to_string`) makes of an `int` is that `int`. -/
theorem stoi_number (n : Int) (hlo : INT_MIN ≤ n) (hhi : n ≤ INT_MAX) :
    stoi (number n) = .ok n := by
  obtain ⟨hne, hdig, hval⟩ := repr_spec n.natAbs
  by_cases hn : n < 0
  · have hs : number n = String.mk ('-' :: (Nat.repr n.natAbs).toList) := by
      simp only [number, hn, if_true]
      rfl
    have hv : -((digitsValue (Nat.repr n.natAbs).toList : Nat) : Int) = n := by
      rw [hval]; omega
    rw [hs]
    have := stoi_minus_digits _ hne hdig (by rw [hv]; exact hlo)
    rw [hv] at this
    exact this
  · have hs : number n = String.mk (Nat.repr n.natAbs).toList := by
      simp only [number, hn, if_false]
      rfl
    have hv : ((digitsValue (Nat.repr n.natAbs).toList : Nat) : Int) = n := by
      rw [hval]; omega
    rw [hs]
    have := stoi_digits _ hne hdig (by rw [hv]; exact hhi)
    rw [hv] at this
    exact this



/-! ## The shape of the handlers' results -/

theorem stoi_of_isEmpty (T : String) (h : T.isEmpty = true) :
    stoi T = .error .invalid_argument := by
  have : T = "" := (String.isEmpty_iff T).mp h
  subst this
  rfl

theorem callWindowChangeCallback_shape (s : WindowControl) :
    ∃ c, s.callWindowChangeCallback = { s with windowChangeCalls := c } := by
  unfold WindowControl.callWindowChangeCallback
  split
  · exact ⟨_, rfl⟩
  · exact ⟨s.windowChangeCalls, rfl⟩

theorem onSizeXChanged_ok (s : WindowControl) (T : String) (v : Int) (hT : stoi T = .ok v) :
    ∃ c, s.onSizeXChanged T =
      .ok { s with _windowDims := s._windowDims.setWidth v, windowChangeCalls := c } := by
  have hne : T.isEmpty = false := by
    cases h : T.isEmpty
    · rfl
    · rw [stoi_of_isEmpty T h] at hT; cases hT
  obtain ⟨c, hc⟩ := callWindowChangeCallback_shape
    { s with _windowDims := s._windowDims.setWidth v }
  refine ⟨c, ?_⟩
  simp only [WindowControl.onSizeXChanged, hne, hT]
  exact congrArg Except.ok hc

theorem onSizeYChanged_ok (s : WindowControl) (T : String) (v : Int) (hT : stoi T = .ok v) :
    ∃ c, s.onSizeYChanged T =
      .ok { s with _windowDims := s._windowDims.setHeight v, windowChangeCalls := c } := by
  have hne : T.isEmpty = false := by
    cases h : T.isEmpty
    · rfl
    · rw [stoi_of_isEmpty T h] at hT; cases hT
  obtain ⟨c, hc⟩ := callWindowChangeCallback_shape
    { s with _windowDims := s._windowDims.setHeight v }
  refine ⟨c, ?_⟩
  simp only [WindowControl.onSizeYChanged, hne, hT]
  exact congrArg Except.ok hc

theorem onOffsetXChanged_ok (s : WindowControl) (T : String) (v : Int) (hT : stoi T = .ok v) :
    ∃ c, s.onOffsetXChanged T =
      .ok { s with
        _windowDims := (s._windowDims.setX v).setWidth (toFloat s._windowDims.w)
        windowChangeCalls := c } := by
  have hne : T.isEmpty = false := by
    cases h : T.isEmpty
    · rfl
    · rw [stoi_of_isEmpty T h] at hT; cases hT
  obtain ⟨c, hc⟩ := callWindowChangeCallback_shape
    { s with _windowDims := (s._windowDims.setX v).setWidth (toFloat s._windowDims.w) }
  refine ⟨c, ?_⟩
  simp only [WindowControl.onOffsetXChanged, hne, hT]
  exact congrArg Except.ok hc

theorem onOffsetYChanged_ok (s : WindowControl) (T : String) (v : Int) (hT : stoi T = .ok v) :
    ∃ c, s.onOffsetYChanged T =
      .ok { s with
        _windowDims := (s._windowDims.setY v).setHeight (toFloat s._windowDims.h)
        windowChangeCalls := c } := by
  have hne : T.isEmpty = false := by
    cases h : T.isEmpty
    · rfl
    · rw [stoi_of_isEmpty T h] at hT; cases hT
  obtain ⟨c, hc⟩ := callWindowChangeCallback_shape
    { s with _windowDims := (s._windowDims.setY v).setHeight (toFloat s._windowDims.h) }
  refine ⟨c, ?_⟩
  simp only [WindowControl.onOffsetYChanged, hne, hT]
  exact congrArg Except.ok hc

theorem onOffsetXChanged_error (s : WindowControl) (T : String) (e : Failure)
    (hT : stoi T = .error e) :
    ∃ c, s.onOffsetXChanged T = .ok { s with windowChangeCalls := c } ∧
      (T.isEmpty = false → c = s.windowChangeCalls) := by
  cases h : T.isEmpty
  · refine ⟨s.windowChangeCalls, ?_, fun _ => rfl⟩
    simp [WindowControl.onOffsetXChanged, h, hT, bind, Except.bind]
  · obtain ⟨c, hc⟩ := callWindowChangeCallback_shape s
    refine ⟨c, ?_, fun h' => by cases h'⟩
    simp [WindowControl.onOffsetXChanged, h, hc, bind, Except.bind, pure, Except.pure]

theorem onOffsetYChanged_error (s : WindowControl) (T : String) (e : Failure)
    (hT : stoi T = .error e) :
    ∃ c, s.onOffsetYChanged T = .ok { s with windowChangeCalls := c } ∧
      (T.isEmpty = false → c = s.windowChangeCalls) := by
  cases h : T.isEmpty
  · refine ⟨s.windowChangeCalls, ?_, fun _ => rfl⟩
    simp [WindowControl.onOffsetYChanged, h, hT, bind, Except.bind]
  · obtain ⟨c, hc⟩ := callWindowChangeCallback_shape s
    refine ⟨c, ?_, fun h' => by cases h'⟩
    simp [WindowControl.onOffsetYChanged, h, hc, bind, Except.bind, pure, Except.pure]

theorem setOffsetXText_ok (s : WindowControl) (T : String) (v : Int) (hT : stoi T = .ok v) :
    ∃ s' c, s.setOffsetXText T = .ok s' ∧ s' = { s with
      _offset_x := T
      _windowDims := if s._offset_x = T then s._windowDims
        else (s._windowDims.setX v).setWidth (toFloat s._windowDims.w)
      windowChangeCalls := c } := by
  unfold WindowControl.setOffsetXText
  by_cases h : s._offset_x = T
  · subst h
    exact ⟨s, s.windowChangeCalls, by simp; rfl, by simp⟩
  · obtain ⟨c, hc⟩ := onOffsetXChanged_ok { s with _offset_x := T } T v hT
    exact ⟨_, c, by simp only [h, if_false]; exact hc, by simp [h]⟩

theorem setOffsetYText_ok (s : WindowControl) (T : String) (v : Int) (hT : stoi T = .ok v) :
    ∃ s' c, s.setOffsetYText T = .ok s' ∧ s' = { s with
      _offset_y := T
      _windowDims := if s._offset_y = T then s._windowDims
        else (s._windowDims.setY v).setHeight (toFloat s._windowDims.h)
      windowChangeCalls := c } := by
  unfold WindowControl.setOffsetYText
  by_cases h : s._offset_y = T
  · subst h
    exact ⟨s, s.windowChangeCalls, by simp; rfl, by simp⟩
  · obtain ⟨c, hc⟩ := onOffsetYChanged_ok { s with _offset_y := T } T v hT
    exact ⟨_, c, by simp only [h, if_false]; exact hc, by simp [h]⟩

theorem setSizeXText_ok (s : WindowControl) (T : String) (v : Int) (hT : stoi T = .ok v) :
    ∃ s' c, s.setSizeXText T = .ok s' ∧ s' = { s with
      _size_x := T
      _windowDims := if s._size_x = T then s._windowDims else s._windowDims.setWidth v
      windowChangeCalls := c } := by
  unfold WindowControl.setSizeXText
  by_cases h : s._size_x = T
  · subst h
    exact ⟨s, s.windowChangeCalls, by simp; rfl, by simp⟩
  · obtain ⟨c, hc⟩ := onSizeXChanged_ok { s with _size_x := T } T v hT
    exact ⟨_, c, by simp only [h, if_false]; exact hc, by simp [h]⟩

theorem setSizeYText_ok (s : WindowControl) (T : String) (v : Int) (hT : stoi T = .ok v) :
    ∃ s' c, s.setSizeYText T = .ok s' ∧ s' = { s with
      _size_y := T
      _windowDims := if s._size_y = T then s._windowDims else s._windowDims.setHeight v
      windowChangeCalls := c } := by
  unfold WindowControl.setSizeYText
  by_cases h : s._size_y = T
  · subst h
    exact ⟨s, s.windowChangeCalls, by simp; rfl, by simp⟩
  · obtain ⟨c, hc⟩ := onSizeYChanged_ok { s with _size_y := T } T v hT
    exact ⟨_, c, by simp only [h, if_false]; exact hc, by simp [h]⟩

/-- The state in which `onFullscreenClicked` returns, written out. -/
theorem onFullscreenClicked_ok (s : WindowControl) (r : QRect)
    (hr : s._monitorResolutions[s._monIndex]? = some r) :
    ∃ c,
      let d1 := if s._offset_x = "0" then s._windowDims
        else (s._windowDims.setX 0).setWidth (toFloat s._windowDims.w)
      let d2 := if s._offset_y = "0" then d1 else (d1.setY 0).setHeight (toFloat d1.h)
      let d3 := if s._size_x = number r.width then d2 else d2.setWidth r.width
      let d4 := if s._size_y = number r.height then d3 else d3.setHeight r.height
      s.onFullscreenClicked = .ok { s with
        _offset_x := "0"
        _offset_y := "0"
        _size_x := number r.width
        _size_y := number r.height
        _windowDims := d4
        windowChangeCalls := c
        _checkBoxWindowDecor := .Unchecked } := by
  have h0 : stoi "0" = .ok 0 := by decide
  have hW := stoi_number r.width r.width_int.1 r.width_int.2
  have hH := stoi_number r.height r.height_int.1 r.height_int.2
  obtain ⟨s1, c1, e1, hs1⟩ := setOffsetXText_ok s "0" 0 h0
  obtain ⟨s2, c2, e2, hs2⟩ := setOffsetYText_ok s1 "0" 0 h0
  obtain ⟨s3, c3, e3, hs3⟩ := setSizeXText_ok s2 (number r.width) r.width hW
  obtain ⟨s4, c4, e4, hs4⟩ := setSizeYText_ok s3 (number r.height) r.height hH
  have hr2 : s2._monitorResolutions[s2._monIndex]? = some r := by
    rw [hs2, hs1]; exact hr
  have hr3 : s3._monitorResolutions[s3._monIndex]? = some r := by
    rw [hs3]; exact hr2
  refine ⟨c4, ?_⟩
  simp only [WindowControl.onFullscreenClicked, WindowControl.selectedMonitorResolution, e1,
    bind, Except.bind, hr2, hr3, pure, Except.pure, e2, e3, e4]
  subst hs1 hs2 hs3 hs4
  rfl

/-! ## Whole numbers that a `float` holds -/

theorem bitLengthAux_le (fuel : Nat) : ∀ (n k : Nat), n < 2 ^ k → bitLengthAux fuel n ≤ k := by
  induction fuel with
  | zero => intro n k _; simp [bitLengthAux]
  | succ fuel ih =>
    intro n k h
    unfold bitLengthAux
    split
    · omega
    · cases k with
      | zero => simp at h; omega
      | succ k =>
        have : n / 2 < 2 ^ k := by
          rw [pow_succ] at h
          omega
        have := ih (n / 2) k this
        omega

/-- Every whole number of magnitude at most `2^24` is held exactly by a `float`. -/
theorem floatExact_of_natAbs_le (v : Int) (h : v.natAbs ≤ 2 ^ 24) : floatExact v := by
  unfold floatExact
  rcases Nat.lt_or_ge v.natAbs (2 ^ 24) with hlt | hge
  · have : bitLength v.natAbs ≤ 24 := bitLengthAux_le _ _ _ hlt
    simp [toFloat, this]
  · have habs : v.natAbs = 2 ^ 24 := le_antisymm h hge
    rcases Int.natAbs_eq v with hv | hv
    · rw [hv, habs]; decide
    · rw [hv, habs]; decide

/-! ## The display after construction -/

theorem new_exampleDisplay :
    Display.new exampleHeader 1 0 [exampleMonitor] = .ok exampleDisplay := rfl

theorem exampleDisplayTwo_reached :
    (do
      let d ← exampleDisplay.toggleWindows
      d.inWindow 1 (fun w => w.setSizeXText "777")) = .ok exampleDisplayTwo := rfl

theorem addWindowControl_ok (d d' : Display) (h : d.addWindowControl = .ok d')
    (hlt : d._nWindowsAllocated < 2) :
    d'._nWindowsAllocated = d._nWindowsAllocated + 1 ∧
    d'._windowControl.length = d._windowControl.length + 1 ∧
    d'._layoutWindowWrappers = d._layoutWindowWrappers ∧ d'.hdr = d.hdr := by
  unfold Display.addWindowControl at h
  simp only [hlt, if_true, bind, Except.bind] at h
  split at h
  · cases h
  · simp only [pure, Except.pure] at h
    injection h with h
    subst h
    simp

theorem hideSecondWindow_ok (d d' : Display) (h : d.hideSecondWindow = .ok d') :
    d'._nWindowsAllocated = d._nWindowsAllocated ∧
    d'._windowControl = d._windowControl ∧
    d'._layoutWindowWrappers.length = d._layoutWindowWrappers.length ∧
    d'._nWindowsDisplayed = 1 ∧ d'._monBox.numWindowsDisplayed = 1 := by
  unfold Display.hideSecondWindow at h
  split at h
  · simp only [pure, Except.pure] at h
    injection h with h
    subst h
    simp
  · cases h

theorem initializeLayout_ok (d d' : Display) (h : d.initializeLayout = .ok d') :
    d'._nWindowsAllocated = d._nWindowsAllocated ∧
    d'._windowControl.length = d._windowControl.length ∧
    d'._layoutWindowWrappers.length = d._layoutWindowWrappers.length + 2 ∧
    d'._nWindowsDisplayed = 1 ∧ d'._monBox.numWindowsDisplayed = 1 := by
  unfold Display.initializeLayout at h
  cases h0 : d._windowControl[0]? with
  | none => simp [h0, bind, Except.bind, throw, throwThe, MonadExceptOf.throw] at h
  | some w0 =>
    simp only [h0, bind, Except.bind, pure, Except.pure] at h
    cases h1 : (d._windowControl.set 0
        (WindowControl.initializeLayout d.hdr.projectionIndeces w0))[1]? with
    | none => simp [h1, throw, throwThe, MonadExceptOf.throw] at h
    | some w1 =>
      simp only [h1] at h
      obtain ⟨a, b, c, e, f⟩ := hideSecondWindow_ok _ _ h
      refine ⟨a, ?_, ?_, e, f⟩
      · rw [b]; simp
      · rw [c]; simp

/-- What `Display::Display` leaves: two window controls allocated, two wrappers, one
window displayed. -/
theorem new_spec (hdr : WindowControlHeader) (nMonitors monitorIndex : Nat)
    (monitorRes : List QRect) (d : Display)
    (h : Display.new hdr nMonitors monitorIndex monitorRes = .ok d) :
    d._nWindowsAllocated = 2 ∧ d._windowControl.length = 2 ∧
    d._layoutWindowWrappers.length = 2 ∧ d._nWindowsDisplayed = 1 ∧
    d._monBox.numWindowsDisplayed = 1 := by
  unfold Display.new at h
  simp only [bind, Except.bind] at h
  split at h
  · cases h
  · rename_i d1 h1
    split at h
    · cases h
    · rename_i d2 h2
      obtain ⟨a1, b1, c1, _⟩ := addWindowControl_ok _ _ h1 (by simp)
      obtain ⟨a2, b2, c2, _⟩ := addWindowControl_ok _ _ h2 (by rw [a1]; simp)
      obtain ⟨a3, b3, c3, e3, f3⟩ := initializeLayout_ok _ _ h
      refine ⟨?_, ?_, ?_, e3, f3⟩
      · rw [a3, a2, a1]
      · rw [b3, b2, b1]; rfl
      · rw [c3, c2, c1]; rfl

theorem toggleWindows_one (d : Display) (h : 1 < d._layoutWindowWrappers.length)
    (h1 : d._nWindowsDisplayed = 1) :
    d.toggleWindows = .ok { d with
      _toggleNumMonitorsButton := "Remove 2nd window"
      _borderFrame := true
      _layoutWindowWrappers := d._layoutWindowWrappers.set 1 true
      _nWindowsDisplayed := 2
      _monBox := { d._monBox with numWindowsDisplayed := 2 } } := by
  simp only [Display.toggleWindows, h1, Display.showSecondWindow, h, if_true]
  rfl

theorem toggleWindows_two (d : Display) (h : 1 < d._layoutWindowWrappers.length)
    (h2 : d._nWindowsDisplayed = 2) :
    d.toggleWindows = .ok { d with
      _toggleNumMonitorsButton := "Add 2nd window"
      _borderFrame := false
      _layoutWindowWrappers := d._layoutWindowWrappers.set 1 false
      _nWindowsDisplayed := 1
      _monBox := { d._monBox with numWindowsDisplayed := 1 } } := by
  simp only [Display.toggleWindows, h2, Display.hideSecondWindow, h, if_true]
  rfl

/-! ## The spout check box and the projection -/

theorem spoutBoxFollowsProjection_setProjectionIndex (P : ProjectionIndeces) (n : Nat)
    (s : WindowControl) (index : Int) (h : s.spoutBoxFollowsProjection P n) :
    (s.setProjectionIndex P index).spoutBoxFollowsProjection P n := by
  unfold WindowControl.setProjectionIndex
  dsimp only
  split
  · exact h
  · exact ⟨h.1, rfl⟩

theorem spoutBoxFollowsProjection_setSpoutCheckState (P : ProjectionIndeces) (n : Nat)
    (s : WindowControl) (state : CheckState) (h : s.spoutBoxFollowsProjection P n) :
    (s.setSpoutCheckState P state).spoutBoxFollowsProjection P n := by
  have h' : ({ s with _checkBoxSpoutOutput := state } : WindowControl).spoutBoxFollowsProjection
      P n := h
  unfold WindowControl.setSpoutCheckState
  split
  · exact h
  · unfold WindowControl.onSpoutSelection
    dsimp only
    split
    · split
      · exact spoutBoxFollowsProjection_setProjectionIndex P n _ _ h'
      · exact h'
    · exact h'

theorem spoutBoxFollowsProjection_initial (hdr : WindowControlHeader)
    (nMonitors monitorIndex windowIndex : Nat) (monitorDims : List QRect) (s0 : WindowControl)
    (hn : 0 < hdr._projectionTypes)
    (h0 : WindowControl.initial hdr nMonitors monitorIndex windowIndex monitorDims = .ok s0) :
    s0.spoutBoxFollowsProjection hdr.projectionIndeces hdr._projectionTypes := by
  have hne : hdr._projectionTypes ≠ 0 := by omega
  unfold WindowControl.initial WindowControl.new at h0
  cases hd : hdr.defaultWindowSizes[windowIndex]? with
  | none => simp [hd, bind, Except.bind, throw, throwThe, MonadExceptOf.throw] at h0
  | some dims =>
    simp only [hd, bind, Except.bind, pure, Except.pure] at h0
    injection h0 with h0
    subst h0
    by_cases hm : nMonitors > 1 <;>
      simp [WindowControl.spoutBoxFollowsProjection, WindowControl.initializeLayout,
        WindowControl.setProjectionIndex, WindowControl.onProjectionChanged,
        QComboBox.withItems, QComboBox.normalize, hne, hn, hm]

theorem reachable_spoutBoxFollowsProjection (P : ProjectionIndeces) (n : Nat)
    (s0 s : WindowControl) (h0 : s0.spoutBoxFollowsProjection P n)
    (hs : WindowControl.ReachableByProjectionAndSpout P s0 s) :
    s.spoutBoxFollowsProjection P n := by
  induction hs with
  | start => exact h0
  | projection s index _ ih => exact spoutBoxFollowsProjection_setProjectionIndex P n s index ih
  | spout s state _ ih => exact spoutBoxFollowsProjection_setSpoutCheckState P n s state ih

theorem setSpoutCheckState_checked (P : ProjectionIndeces) (s : WindowControl)
    (hE : 0 ≤ P.Equirectangular ∧ P.Equirectangular < s._comboProjection.count)
    (hs : s.isSpoutSelected = false) :
    (s.setSpoutCheckState P .Checked).isSpoutSelected = true ∧
    ((s.setSpoutCheckState P .Checked).projectionSelectedIndex = P.Fisheye ∨
      (s.setSpoutCheckState P .Checked).projectionSelectedIndex = P.Equirectangular) := by
  have hne : s._checkBoxSpoutOutput ≠ .Checked := by
    intro h
    simp [WindowControl.isSpoutSelected, h] at hs
  have hn : s._comboProjection.normalize P.Equirectangular = P.Equirectangular := by
    simp [QComboBox.normalize, hE.1, hE.2]
  by_cases hcE : s._comboProjection.currentIndex = P.Equirectangular
  · simp [WindowControl.setSpoutCheckState, hne, WindowControl.onSpoutSelection, hcE,
      WindowControl.isSpoutSelected, WindowControl.projectionSelectedIndex]
  · by_cases hcF : s._comboProjection.currentIndex = P.Fisheye
    · simp [WindowControl.setSpoutCheckState, hne, WindowControl.onSpoutSelection, hcF,
        WindowControl.isSpoutSelected, WindowControl.projectionSelectedIndex]
    · simp [WindowControl.setSpoutCheckState, hne, WindowControl.onSpoutSelection, hcF, hcE,
        WindowControl.isSpoutSelected, WindowControl.projectionSelectedIndex,
        WindowControl.setProjectionIndex, WindowControl.onProjectionChanged, hn, Ne.symm hcE]

/-! ## The number of windows displayed -/

/-- The two wrappers are laid out, one or two windows are displayed, and the monitor box
was told that number. -/
theorem countInvariant_new (hdr : WindowControlHeader) (nMonitors monitorIndex : Nat)
    (monitorRes : List QRect) (d : Display)
    (h : Display.new hdr nMonitors monitorIndex monitorRes = .ok d) :
    1 < d._layoutWindowWrappers.length ∧
    (d._nWindowsDisplayed = 1 ∨ d._nWindowsDisplayed = 2) ∧
    d._monBox.numWindowsDisplayed = d._nWindowsDisplayed := by
  obtain ⟨_, _, c, e, f⟩ := new_spec hdr nMonitors monitorIndex monitorRes d h
  exact ⟨by omega, Or.inl e, by rw [e, f]⟩

theorem toggleWindows_frame (d d' : Display) (h : d.toggleWindows = .ok d')
    (hw : 1 < d._layoutWindowWrappers.length)
    (hn : d._nWindowsDisplayed = 1 ∨ d._nWindowsDisplayed = 2) :
    1 < d'._layoutWindowWrappers.length ∧
    (d._nWindowsDisplayed = 1 → d'._nWindowsDisplayed = 2) ∧
    (d._nWindowsDisplayed = 2 → d'._nWindowsDisplayed = 1) ∧
    d'._monBox.numWindowsDisplayed = d'._nWindowsDisplayed := by
  rcases hn with h1 | h2
  · rw [toggleWindows_one d hw h1] at h
    injection h with h
    subst h
    exact ⟨by simpa using hw, fun _ => rfl, fun h2 => by omega, rfl⟩
  · rw [toggleWindows_two d hw h2] at h
    injection h with h
    subst h
    exact ⟨by simpa using hw, fun h1 => by omega, fun _ => rfl, rfl⟩

theorem inWindow_frame (d d' : Display) (i : Nat)
    (event : WindowControl → Except Failure WindowControl) (h : d.inWindow i event = .ok d') :
    d'._layoutWindowWrappers = d._layoutWindowWrappers ∧
    d'._nWindowsDisplayed = d._nWindowsDisplayed ∧
    d'._monBox.numWindowsDisplayed = d._monBox.numWindowsDisplayed := by
  unfold Display.inWindow at h
  cases hw : d._windowControl[i]? with
  | none => simp [hw, throw, throwThe, MonadExceptOf.throw] at h
  | some w =>
    simp only [hw, bind, Except.bind] at h
    cases he : event w with
    | error e => simp [he] at h
    | ok w' =>
      simp only [he, pure, Except.pure] at h
      injection h with h
      subst h
      exact ⟨rfl, rfl, rfl⟩

theorem clickWebGui_frame (d : Display) (i : Nat) (state : CheckState) :
    (d.clickWebGui i state)._layoutWindowWrappers = d._layoutWindowWrappers ∧
    (d.clickWebGui i state)._nWindowsDisplayed = d._nWindowsDisplayed ∧
    (d.clickWebGui i state)._monBox.numWindowsDisplayed = d._monBox.numWindowsDisplayed := by
  unfold Display.clickWebGui
  split <;> exact ⟨rfl, rfl, rfl⟩

theorem addWindowControl_frame (d d' : Display) (h : d.addWindowControl = .ok d') :
    d'._layoutWindowWrappers = d._layoutWindowWrappers ∧
    d'._nWindowsDisplayed = d._nWindowsDisplayed ∧
    d'._monBox.numWindowsDisplayed = d._monBox.numWindowsDisplayed := by
  unfold Display.addWindowControl at h
  by_cases hlt : d._nWindowsAllocated < 2
  · simp only [hlt, if_true, bind, Except.bind] at h
    split at h
    · cases h
    · simp only [pure, Except.pure] at h
      injection h with h
      subst h
      exact ⟨rfl, rfl, rfl⟩
  · simp only [hlt, if_false, pure, Except.pure] at h
    injection h with h
    subst h
    exact ⟨rfl, rfl, rfl⟩

theorem reachable_countInvariant (d0 d : Display)
    (h0 : 1 < d0._layoutWindowWrappers.length ∧
      (d0._nWindowsDisplayed = 1 ∨ d0._nWindowsDisplayed = 2) ∧
      d0._monBox.numWindowsDisplayed = d0._nWindowsDisplayed)
    (hd : Display.Reachable d0 d) :
    1 < d._layoutWindowWrappers.length ∧
    (d._nWindowsDisplayed = 1 ∨ d._nWindowsDisplayed = 2) ∧
    d._monBox.numWindowsDisplayed = d._nWindowsDisplayed := by
  induction hd with
  | start => exact h0
  | toggle d d' _ ht ih =>
    obtain ⟨a, b, c, e⟩ := toggleWindows_frame d d' ht ih.1 ih.2.1
    refine ⟨a, ?_, e⟩
    rcases ih.2.1 with h1 | h2
    · exact Or.inr (b h1)
    · exact Or.inl (c h2)
  | window d d' i event _ hw ih =>
    obtain ⟨a, b, c⟩ := inWindow_frame d d' i event hw
    rw [a, b, c]
    exact ih
  | webGui d i state _ ih =>
    obtain ⟨a, b, c⟩ := clickWebGui_frame d i state
    rw [a, b, c]
    exact ih
  | add d d' _ ha ih =>
    obtain ⟨a, b, c⟩ := addWindowControl_frame d d' ha
    rw [a, b, c]
    exact ih

/-! ## What the operations leave of the monitor selection -/

theorem callWindowChangeCallback_monitor (s : WindowControl) :
    WindowControl.monitorFrame s s.callWindowChangeCallback := by
  obtain ⟨c, hc⟩ := callWindowChangeCallback_shape s
  rw [hc]
  exact ⟨rfl, rfl, rfl, rfl⟩

theorem onSizeXChanged_monitor (s s' : WindowControl) (T : String)
    (h : s.onSizeXChanged T = .ok s') :
    WindowControl.monitorFrame s s' := by
  unfold WindowControl.onSizeXChanged at h
  cases he : T.isEmpty
  · cases hT : stoi T with
    | error e => simp [he, hT, bind, Except.bind] at h
    | ok v =>
      simp only [he, hT, bind, Except.bind, pure, Except.pure] at h
      injection h with h
      subst h
      exact callWindowChangeCallback_monitor _
  · simp only [he, bind, Except.bind, pure, Except.pure] at h
    injection h with h
    subst h
    exact callWindowChangeCallback_monitor _

theorem onSizeYChanged_monitor (s s' : WindowControl) (T : String)
    (h : s.onSizeYChanged T = .ok s') :
    WindowControl.monitorFrame s s' := by
  unfold WindowControl.onSizeYChanged at h
  cases he : T.isEmpty
  · cases hT : stoi T with
    | error e => simp [he, hT, bind, Except.bind] at h
    | ok v =>
      simp only [he, hT, bind, Except.bind, pure, Except.pure] at h
      injection h with h
      subst h
      exact callWindowChangeCallback_monitor _
  · simp only [he, bind, Except.bind, pure, Except.pure] at h
    injection h with h
    subst h
    exact callWindowChangeCallback_monitor _

theorem onOffsetXChanged_monitor (s s' : WindowControl) (T : String)
    (h : s.onOffsetXChanged T = .ok s') :
    WindowControl.monitorFrame s s' := by
  cases hT : stoi T with
  | error e =>
    obtain ⟨c, hc, _⟩ := onOffsetXChanged_error s T e hT
    rw [hc] at h
    injection h with h
    subst h
    exact ⟨rfl, rfl, rfl, rfl⟩
  | ok v =>
    obtain ⟨c, hc⟩ := onOffsetXChanged_ok s T v hT
    rw [hc] at h
    injection h with h
    subst h
    exact ⟨rfl, rfl, rfl, rfl⟩

theorem onOffsetYChanged_monitor (s s' : WindowControl) (T : String)
    (h : s.onOffsetYChanged T = .ok s') :
    WindowControl.monitorFrame s s' := by
  cases hT : stoi T with
  | error e =>
    obtain ⟨c, hc, _⟩ := onOffsetYChanged_error s T e hT
    rw [hc] at h
    injection h with h
    subst h
    exact ⟨rfl, rfl, rfl, rfl⟩
  | ok v =>
    obtain ⟨c, hc⟩ := onOffsetYChanged_ok s T v hT
    rw [hc] at h
    injection h with h
    subst h
    exact ⟨rfl, rfl, rfl, rfl⟩

theorem setSizeXText_monitor (s s' : WindowControl) (T : String)
    (h : s.setSizeXText T = .ok s') :
    WindowControl.monitorFrame s s' := by
  unfold WindowControl.setSizeXText at h
  split at h
  · injection h with h
    subst h
    exact ⟨rfl, rfl, rfl, rfl⟩
  · have := onSizeXChanged_monitor _ s' T h
    exact this

theorem setSizeYText_monitor (s s' : WindowControl) (T : String)
    (h : s.setSizeYText T = .ok s') :
    WindowControl.monitorFrame s s' := by
  unfold WindowControl.setSizeYText at h
  split at h
  · injection h with h
    subst h
    exact ⟨rfl, rfl, rfl, rfl⟩
  · have := onSizeYChanged_monitor _ s' T h
    exact this

theorem setOffsetXText_monitor (s s' : WindowControl) (T : String)
    (h : s.setOffsetXText T = .ok s') :
    WindowControl.monitorFrame s s' := by
  unfold WindowControl.setOffsetXText at h
  split at h
  · injection h with h
    subst h
    exact ⟨rfl, rfl, rfl, rfl⟩
  · have := onOffsetXChanged_monitor _ s' T h
    exact this

theorem setOffsetYText_monitor (s s' : WindowControl) (T : String)
    (h : s.setOffsetYText T = .ok s') :
    WindowControl.monitorFrame s s' := by
  unfold WindowControl.setOffsetYText at h
  split at h
  · injection h with h
    subst h
    exact ⟨rfl, rfl, rfl, rfl⟩
  · have := onOffsetYChanged_monitor _ s' T h
    exact this

theorem setProjectionIndex_monitor (P : ProjectionIndeces) (s : WindowControl) (index : Int) :
    WindowControl.monitorFrame s (s.setProjectionIndex P index) := by
  unfold WindowControl.setProjectionIndex
  dsimp only
  split <;> exact ⟨rfl, rfl, rfl, rfl⟩

theorem setSpoutCheckState_monitor (P : ProjectionIndeces) (s : WindowControl)
    (state : CheckState) :
    WindowControl.monitorFrame s (s.setSpoutCheckState P state) := by
  unfold WindowControl.setSpoutCheckState
  split
  · exact ⟨rfl, rfl, rfl, rfl⟩
  · unfold WindowControl.onSpoutSelection
    dsimp only
    split
    · split
      · exact setProjectionIndex_monitor P _ _
      · exact ⟨rfl, rfl, rfl, rfl⟩
    · exact ⟨rfl, rfl, rfl, rfl⟩

theorem setWebGuiCheckState_monitor (s : WindowControl) (state : CheckState) :
    WindowControl.monitorFrame s (s.setWebGuiCheckState state) := by
  unfold WindowControl.setWebGuiCheckState
  split
  · exact ⟨rfl, rfl, rfl, rfl⟩
  · unfold WindowControl.onWebGuiSelection
    split <;> exact ⟨rfl, rfl, rfl, rfl⟩

theorem onFullscreenClicked_monitor (s s' : WindowControl)
    (h : s.onFullscreenClicked = .ok s') :
    WindowControl.monitorFrame s s' := by
  unfold WindowControl.onFullscreenClicked at h
  cases h1 : s.setOffsetXText "0" with
  | error e => simp [h1, bind, Except.bind] at h
  | ok s1 =>
    obtain ⟨a1, b1, c1, d1⟩ := setOffsetXText_monitor s s1 "0" h1
    simp only [h1, bind, Except.bind] at h
    cases h2 : s1.setOffsetYText "0" with
    | error e => simp [h2] at h
    | ok s2 =>
      obtain ⟨a2, b2, c2, d2⟩ := setOffsetYText_monitor s1 s2 "0" h2
      simp only [h2] at h
      cases hr : s2.selectedMonitorResolution with
      | error e => simp [hr] at h
      | ok r =>
        simp only [hr] at h
        cases h3 : s2.setSizeXText (number r.width) with
        | error e => simp [h3] at h
        | ok s3 =>
          obtain ⟨a3, b3, c3, d3⟩ := setSizeXText_monitor s2 s3 _ h3
          simp only [h3] at h
          cases hr' : s3.selectedMonitorResolution with
          | error e => simp [hr'] at h
          | ok r' =>
            simp only [hr'] at h
            cases h4 : s3.setSizeYText (number r'.height) with
            | error e => simp [h4] at h
            | ok s4 =>
              obtain ⟨a4, b4, c4, d4⟩ := setSizeYText_monitor s3 s4 _ h4
              simp only [h4, pure, Except.pure] at h
              injection h with h
              subst h
              exact ⟨by rw [← a1, ← a2, ← a3, ← a4], by rw [← b1, ← b2, ← b3, ← b4],
                by rw [← c1, ← c2, ← c3, ← c4], by rw [← d1, ← d2, ← d3, ← d4]⟩

/-- What the choice of the item `index` of the combo box of monitors leaves: the list of
monitor resolutions, the number of items and the visibility of the box; the monitor index
becomes `index` (as an `unsigned int`, so at most `index`), or stays when `index` is the
current item already. -/
theorem setMonitorIndex_spec (s : WindowControl) (index : Int) (h0 : 0 ≤ index)
    (hlt : index < s._comboMonitorSelect.count) :
    (s.setMonitorIndex index)._monitorResolutions = s._monitorResolutions ∧
    (s.setMonitorIndex index)._comboMonitorSelect.count = s._comboMonitorSelect.count ∧
    (s.setMonitorIndex index)._comboMonitorSelectVisible = s._comboMonitorSelectVisible ∧
    ((s.setMonitorIndex index)._monIndex = s._monIndex ∨
      ((s.setMonitorIndex index)._monIndex : Int) ≤ index) := by
  have hn : s._comboMonitorSelect.normalize index = index := by
    simp [QComboBox.normalize, h0, hlt]
  unfold WindowControl.setMonitorIndex
  dsimp only
  rw [hn]
  split
  · exact ⟨rfl, rfl, rfl, Or.inl rfl⟩
  · obtain ⟨a, b, c, d⟩ := callWindowChangeCallback_monitor
      { s with
        _comboMonitorSelect := { s._comboMonitorSelect with currentIndex := index }
        _monIndex := toUnsigned index }
    unfold WindowControl.onMonitorChanged
    refine ⟨b, by rw [c], d, Or.inr ?_⟩
    rw [a]
    show ((toUnsigned index : Nat) : Int) ≤ index
    unfold toUnsigned
    omega

theorem operation_monitorSetup (P : ProjectionIndeces) (hdr : WindowControlHeader)
    (nMonitors : Nat) (monitorDims : List QRect) (s s' : WindowControl)
    (hnames : 1 < nMonitors → hdr._monitorNames ≤ monitorDims.length)
    (h : WindowControl.Operation P s s')
    (inv : s._monitorResolutions = monitorDims ∧ s._monIndex < monitorDims.length ∧
      s._comboMonitorSelect.count = hdr._monitorNames ∧
      (s._comboMonitorSelectVisible = true → 1 < nMonitors)) :
    s'._monitorResolutions = monitorDims ∧ s'._monIndex < monitorDims.length ∧
    s'._comboMonitorSelect.count = hdr._monitorNames ∧
    (s'._comboMonitorSelectVisible = true → 1 < nMonitors) := by
  have keep : ∀ t : WindowControl, WindowControl.monitorFrame s t →
      t._monitorResolutions = monitorDims ∧ t._monIndex < monitorDims.length ∧
      t._comboMonitorSelect.count = hdr._monitorNames ∧
      (t._comboMonitorSelectVisible = true → 1 < nMonitors) := by
    intro t ht
    obtain ⟨a, b, c, d⟩ := ht
    exact ⟨by rw [b]; exact inv.1, by rw [a]; exact inv.2.1, by rw [c]; exact inv.2.2.1,
      by rw [d]; exact inv.2.2.2⟩
  cases h with
  | sizeX T _ h => exact keep _ (setSizeXText_monitor s s' T h)
  | sizeY T _ h => exact keep _ (setSizeYText_monitor s s' T h)
  | offsetX T _ h => exact keep _ (setOffsetXText_monitor s s' T h)
  | offsetY T _ h => exact keep _ (setOffsetYText_monitor s s' T h)
  | monitor index hv h0 hlt =>
    obtain ⟨a, b, c, d⟩ := setMonitorIndex_spec s index h0 hlt
    refine ⟨by rw [a]; exact inv.1, ?_, by rw [b]; exact inv.2.2.1, by rw [c]; exact inv.2.2.2⟩
    rcases d with d | d
    · rw [d]; exact inv.2.1
    · have hcount := hnames (inv.2.2.2 hv)
      rw [inv.2.2.1] at hlt
      omega
  | projection index => exact keep _ (setProjectionIndex_monitor P s index)
  | spout state => exact keep _ (setSpoutCheckState_monitor P s state)
  | webGui state => exact keep _ (setWebGuiCheckState_monitor s state)
  | fullscreen _ h => exact keep _ (onFullscreenClicked_monitor s s' h)

theorem initializeLayout_monitorSetup (P : ProjectionIndeces) (s : WindowControl) :
    (s.initializeLayout P)._monIndex = s._monIndex ∧
    (s.initializeLayout P)._monitorResolutions = s._monitorResolutions ∧
    (s.initializeLayout P)._comboMonitorSelect = s._comboMonitorSelect ∧
    ((s.initializeLayout P)._comboMonitorSelectVisible = true → 1 < s._nMonitors) := by
  unfold WindowControl.initializeLayout
  dsimp only
  by_cases hm : s._nMonitors > 1
  · rw [if_pos hm]
    obtain ⟨a, b, c, d⟩ := setProjectionIndex_monitor P s 0
    exact ⟨a, b, c, fun _ => hm⟩
  · rw [if_neg hm]
    obtain ⟨a, b, c, d⟩ := setProjectionIndex_monitor P
      { s with _comboMonitorSelectVisible := false } 0
    refine ⟨a, b, c, ?_⟩
    intro hv
    have hfalse : (WindowControl.setProjectionIndex P
        { s with _comboMonitorSelectVisible := false } 0)._comboMonitorSelectVisible
          = true := hv
    rw [d] at hfalse
    cases hfalse

theorem initial_monitorSetup (hdr : WindowControlHeader)
    (nMonitors monitorIndex windowIndex : Nat) (monitorDims : List QRect) (s0 : WindowControl)
    (h0 : WindowControl.initial hdr nMonitors monitorIndex windowIndex monitorDims = .ok s0) :
    s0._monIndex = monitorIndex ∧ s0._monitorResolutions = monitorDims ∧
    s0._comboMonitorSelect.count = hdr._monitorNames ∧
    (s0._comboMonitorSelectVisible = true → 1 < nMonitors) := by
  unfold WindowControl.initial WindowControl.new at h0
  cases hd : hdr.defaultWindowSizes[windowIndex]? with
  | none => simp [hd, bind, Except.bind, throw, throwThe, MonadExceptOf.throw] at h0
  | some dims =>
    simp only [hd, bind, Except.bind, pure, Except.pure] at h0
    injection h0 with h0
    subst h0
    obtain ⟨a, b, c, d⟩ := initializeLayout_monitorSetup hdr.projectionIndeces
      ({ _nMonitors := nMonitors
         _monIndex := monitorIndex
         _index := windowIndex
         _monitorResolutions := monitorDims
         _windowDims := dims
         _size_x := number dims.w
         _size_y := number dims.h
         _offset_x := number dims.xp
         _offset_y := number dims.yp
         _comboMonitorSelect :=
           { QComboBox.withItems hdr._monitorNames with
             currentIndex := (QComboBox.withItems hdr._monitorNames).normalize monitorIndex }
         _comboMonitorSelectVisible := true
         _checkBoxWindowDecor := .Checked
         _checkBoxWebGui := .Unchecked
         _checkBoxSpoutOutput := .Unchecked
         _comboProjection := QComboBox.withItems hdr._projectionTypes
         _comboQuality := QComboBox.withItems hdr._qualityTypes
         visible := ⟨true, true, true, true, true, true, true, true, true⟩
         _windowChangeCallback := false
         _windowGuiCheckCallback := false
         windowChangeCalls := []
         windowGuiCheckCalls := [] } : WindowControl)
    exact ⟨a, b, by rw [c]; rfl, d⟩

/-! ## The calls of the change callback -/

/-- With a callback registered, `callWindowChangeCallback` records one call, made with
the monitor index, the window index and the rectangle of the state it is called in. -/
theorem callWindowChangeCallback_registered (s : WindowControl)
    (hcb : s._windowChangeCallback = true) :
    s.callWindowChangeCallback = { s with
      windowChangeCalls :=
        s.windowChangeCalls ++ [(toSigned s._monIndex, toSigned s._index, s._windowDims)] } := by
  simp [WindowControl.callWindowChangeCallback, hcb]

theorem onSizeXChanged_registered (s : WindowControl) (T : String) (v : Int)
    (hcb : s._windowChangeCallback = true) (hT : stoi T = .ok v) :
    s.onSizeXChanged T = .ok { s with
      _windowDims := s._windowDims.setWidth v
      windowChangeCalls := s.windowChangeCalls ++
        [(toSigned s._monIndex, toSigned s._index, s._windowDims.setWidth v)] } := by
  have hne : T.isEmpty = false := by
    cases h : T.isEmpty
    · rfl
    · rw [stoi_of_isEmpty T h] at hT; cases hT
  simp only [WindowControl.onSizeXChanged, hne, hT, bind, Except.bind, pure, Except.pure,
    Bool.not_false, if_true]
  exact congrArg Except.ok (callWindowChangeCallback_registered
    { s with _windowDims := s._windowDims.setWidth v } hcb)

theorem onSizeYChanged_registered (s : WindowControl) (T : String) (v : Int)
    (hcb : s._windowChangeCallback = true) (hT : stoi T = .ok v) :
    s.onSizeYChanged T = .ok { s with
      _windowDims := s._windowDims.setHeight v
      windowChangeCalls := s.windowChangeCalls ++
        [(toSigned s._monIndex, toSigned s._index, s._windowDims.setHeight v)] } := by
  have hne : T.isEmpty = false := by
    cases h : T.isEmpty
    · rfl
    · rw [stoi_of_isEmpty T h] at hT; cases hT
  simp only [WindowControl.onSizeYChanged, hne, hT, bind, Except.bind, pure, Except.pure,
    Bool.not_false, if_true]
  exact congrArg Except.ok (callWindowChangeCallback_registered
    { s with _windowDims := s._windowDims.setHeight v } hcb)

theorem onOffsetXChanged_registered (s : WindowControl) (T : String) (v : Int)
    (hcb : s._windowChangeCallback = true) (hT : stoi T = .ok v) :
    s.onOffsetXChanged T = .ok { s with
      _windowDims := (s._windowDims.setX v).setWidth (toFloat s._windowDims.w)
      windowChangeCalls := s.windowChangeCalls ++
        [(toSigned s._monIndex, toSigned s._index,
          (s._windowDims.setX v).setWidth (toFloat s._windowDims.w))] } := by
  have hne : T.isEmpty = false := by
    cases h : T.isEmpty
    · rfl
    · rw [stoi_of_isEmpty T h] at hT; cases hT
  simp only [WindowControl.onOffsetXChanged, hne, hT, bind, Except.bind, pure, Except.pure,
    Bool.not_false, if_true]
  exact congrArg Except.ok (callWindowChangeCallback_registered
    { s with _windowDims := (s._windowDims.setX v).setWidth (toFloat s._windowDims.w) } hcb)

theorem onOffsetYChanged_registered (s : WindowControl) (T : String) (v : Int)
    (hcb : s._windowChangeCallback = true) (hT : stoi T = .ok v) :
    s.onOffsetYChanged T = .ok { s with
      _windowDims := (s._windowDims.setY v).setHeight (toFloat s._windowDims.h)
      windowChangeCalls := s.windowChangeCalls ++
        [(toSigned s._monIndex, toSigned s._index,
          (s._windowDims.setY v).setHeight (toFloat s._windowDims.h))] } := by
  have hne : T.isEmpty = false := by
    cases h : T.isEmpty
    · rfl
    · rw [stoi_of_isEmpty T h] at hT; cases hT
  simp only [WindowControl.onOffsetYChanged, hne, hT, bind, Except.bind, pure, Except.pure,
    Bool.not_false, if_true]
  exact congrArg Except.ok (callWindowChangeCallback_registered
    { s with _windowDims := (s._windowDims.setY v).setHeight (toFloat s._windowDims.h) } hcb)

theorem inWindow_delivers (d : Display) (i : Nat)
    (event : WindowControl → Except Failure WindowControl) (w w' : WindowControl)
    (hw : d._windowControl[i]? = some w) (he : event w = .ok w')
    (hc : w'.windowChangeCalls =
      w.windowChangeCalls ++ [(toSigned w'._monIndex, toSigned w'._index, w'._windowDims)]) :
    ∃ d', d.inWindow i event = .ok d' ∧ d'._windowControl[i]? = some w' ∧
      d'._monBox.windowRects =
        d._monBox.windowRects ++ [(toSigned w'._index, w'._windowDims)] := by
  have hi : i < d._windowControl.length := by
    rcases Nat.lt_or_ge i d._windowControl.length with h | h
    · exact h
    · rw [List.getElem?_eq_none h] at hw
      cases hw
  have hrun : d.inWindow i event = .ok { d with
      _windowControl := d._windowControl.set i w'
      _monBox := { d._monBox with
        windowRects := d._monBox.windowRects ++
          (w'.windowChangeCalls.drop w.windowChangeCalls.length).map
            fun call => (call.2.1, call.2.2) } } := by
    simp only [Display.inWindow, hw, he, bind, Except.bind, pure, Except.pure]
  refine ⟨_, hrun, ?_, ?_⟩
  · simp [hi]
  · simp [hc]

/-! ## The effective fluxes of the habitable zone -/

theorem createIdentifier_example :
    exoplanets.createIdentifier "HD 20782 b. \"x\"" = "HD_20782_b-_x" := by decide

/-- The effective flux of the outer boundary is positive for `teff` from 2000 to 8000,
that is for `tstar` from -3780 to 2220. -/
theorem seff_maximumGreenhouse_pos (t : ℚ) (h1 : -3780 ≤ t) (h2 : t ≤ 2220) :
    0 < exoplanets.seff exoplanets.maximumGreenhouse t := by
  simp only [exoplanets.seff, exoplanets.maximumGreenhouse]
  norm_num
  rcases le_total t 0 with ht | ht
  · have a : 0 ≤ (-t) ^ 3 := pow_nonneg (by linarith) 3
    have g : (0 : ℚ) ≤ 3198 + (5575 / 10000) * t := by linarith
    have := mul_nonneg a g
    nlinarith [this, sq_nonneg t]
  · have a : t ^ 3 ≤ 2220 ^ 3 := pow_le_pow_left₀ ht h2 3
    have a0 : 0 ≤ t ^ 3 := pow_nonneg ht 3
    have g : (3198 : ℚ) + (5575 / 10000) * t ≤ 4436 := by linarith
    have g0 : (0 : ℚ) ≤ 3198 + (5575 / 10000) * t := by linarith
    have := mul_le_mul a g g0 (by norm_num)
    nlinarith [this, sq_nonneg t]

/-- The effective flux of the inner boundary exceeds that of the outer boundary for
`tstar` from -3780 to 2220. -/
theorem seff_maximumGreenhouse_lt_runawayGreenhouse (t : ℚ) (h1 : -3780 ≤ t)
    (h2 : t ≤ 2220) :
    exoplanets.seff exoplanets.maximumGreenhouse t
      < exoplanets.seff exoplanets.runawayGreenhouse t := by
  simp only [exoplanets.seff, exoplanets.maximumGreenhouse, exoplanets.runawayGreenhouse]
  norm_num
  rcases le_total t 0 with ht | ht
  · have a : 0 ≤ (-t) ^ 3 := pow_nonneg (by linarith) 3
    have a' : (-t) ^ 3 ≤ 3780 ^ 3 := pow_le_pow_left₀ (by linarith) (by linarith) 3
    have g : (-82 : ℚ) ≤ 5110 + (13735 / 10000) * t := by linarith
    have := mul_le_mul_of_nonneg_left g a
    nlinarith [this, sq_nonneg t]
  · have a : t ^ 3 ≤ 2220 ^ 3 := pow_le_pow_left₀ ht h2 3
    have a0 : 0 ≤ t ^ 3 := pow_nonneg ht 3
    have g : (5110 : ℚ) + (13735 / 10000) * t ≤ 8160 := by linarith
    have g0 : (0 : ℚ) ≤ 5110 + (13735 / 10000) * t := by linarith
    have := mul_le_mul a g g0 (by norm_num)
    nlinarith [this, sq_nonneg t]

/-! ## The claims -/

/-- C1: for every window state and every text that `std::stoi` reads as an integer `v`
(in particular the decimal text of any `int`), `onSizeXChanged` returns normally and
leaves the window rectangle with width `v` and with height, offset x and offset y
unchanged; `onSizeYChanged` sets the height to `v` and leaves width and both offsets
unchanged. -/
theorem C1_size_handlers_set_one_dimension (s : WindowControl) :
    (∀ (T : String) (v : Int), stoi T = .ok v →
      (∃ s', s.onSizeXChanged T = .ok s' ∧ s'._windowDims = { s._windowDims with w := v }) ∧
      (∃ s', s.onSizeYChanged T = .ok s' ∧ s'._windowDims = { s._windowDims with h := v })) ∧
    (∀ n : Int, INT_MIN ≤ n → n ≤ INT_MAX →
      (∃ s', s.onSizeXChanged (number n) = .ok s' ∧
        s'._windowDims = { s._windowDims with w := n }) ∧
      (∃ s', s.onSizeYChanged (number n) = .ok s' ∧
        s'._windowDims = { s._windowDims with h := n })) := by
  have main : ∀ (T : String) (v : Int), stoi T = .ok v →
      (∃ s', s.onSizeXChanged T = .ok s' ∧ s'._windowDims = { s._windowDims with w := v }) ∧
      (∃ s', s.onSizeYChanged T = .ok s' ∧ s'._windowDims = { s._windowDims with h := v }) := by
    intro T v hT
    obtain ⟨c, hc⟩ := onSizeXChanged_ok s T v hT
    obtain ⟨c', hc'⟩ := onSizeYChanged_ok s T v hT
    exact ⟨⟨_, hc, rfl⟩, ⟨_, hc', rfl⟩⟩
  exact ⟨main, fun n hlo hhi => main (number n) n (stoi_number n hlo hhi)⟩

/-- Witness of C1: the text `777` on the example window. -/
theorem C1_size_handlers_set_one_dimension_witness :
    stoi "777" = .ok 777 ∧
    (∃ s', exampleWindow.onSizeXChanged "777" = .ok s' ∧
      s'._windowDims = { exampleWindow._windowDims with w := 777 }) ∧
    (∃ s', exampleWindow.onSizeYChanged (number 777) = .ok s' ∧
      s'._windowDims = { exampleWindow._windowDims with h := 777 }) :=
  ⟨by decide,
    ((C1_size_handlers_set_one_dimension exampleWindow).1 "777" 777 (by decide)).1,
    ((C1_size_handlers_set_one_dimension exampleWindow).2 777 (by decide) (by decide)).2⟩

/-- Beyond the whole numbers that a `float` holds the saved width is rounded: on a window
of width 16777217 (`2^24 + 1`), `onOffsetXChanged` with the text `5` returns with the
width 16777216. -/
theorem onOffsetXChanged_wide_width :
    wideWindow._windowDims.w = 16777217 ∧
    (wideWindow.onOffsetXChanged "5").map (fun s' => s'._windowDims.w) = .ok 16777216 := by
  decide

/-- The offset handlers keep every size that a `float` holds exactly. -/
theorem offset_handlers_keep_float_sizes (s : WindowControl) (T : String) (v : Int)
    (hT : stoi T = .ok v) :
    (floatExact s._windowDims.w →
      ∃ s', s.onOffsetXChanged T = .ok s' ∧ s'._windowDims = { s._windowDims with xp := v }) ∧
    (floatExact s._windowDims.h →
      ∃ s', s.onOffsetYChanged T = .ok s' ∧ s'._windowDims = { s._windowDims with yp := v }) := by
  obtain ⟨c, hc⟩ := onOffsetXChanged_ok s T v hT
  obtain ⟨c', hc'⟩ := onOffsetYChanged_ok s T v hT
  refine ⟨fun hw => ⟨_, hc, ?_⟩, fun hh => ⟨_, hc', ?_⟩⟩
  · unfold floatExact at hw
    simp [QRectF.setX, QRectF.setWidth, hw]
  · unfold floatExact at hh
    simp [QRectF.setY, QRectF.setHeight, hh]

/-- C2: for every window state whose width and height are whole numbers of magnitude at
most `2^24 = 16777216` (the sizes that the validators of the line edits admit are bounded
by `_maxWindowSizePixels`; every such bound up to `2^24` is covered) and every text that
`std::stoi` reads as an integer `v`, `onOffsetXChanged` returns normally and leaves the
window rectangle with x equal to `v` and with width, height and y exactly as before;
`onOffsetYChanged` sets y to `v` and leaves height, width and x exactly as before. -/
theorem C2_offset_handlers_keep_size (s : WindowControl) (T : String) (v : Int)
    (hT : stoi T = .ok v) (hw : s._windowDims.w.natAbs ≤ 2 ^ 24)
    (hh : s._windowDims.h.natAbs ≤ 2 ^ 24) :
    (∃ s', s.onOffsetXChanged T = .ok s' ∧ s'._windowDims = { s._windowDims with xp := v }) ∧
    (∃ s', s.onOffsetYChanged T = .ok s' ∧ s'._windowDims = { s._windowDims with yp := v }) :=
  ⟨(offset_handlers_keep_float_sizes s T v hT).1 (floatExact_of_natAbs_le _ hw),
    (offset_handlers_keep_float_sizes s T v hT).2 (floatExact_of_natAbs_le _ hh)⟩

/-- Witness of C2: the text `-7` on the example window, of width 1280 and height 720. -/
theorem C2_offset_handlers_keep_size_witness :
    stoi "-7" = .ok (-7) ∧ exampleWindow._windowDims.w.natAbs ≤ 2 ^ 24 ∧
    exampleWindow._windowDims.h.natAbs ≤ 2 ^ 24 ∧
    (∃ s', exampleWindow.onOffsetXChanged "-7" = .ok s' ∧
      s'._windowDims = { exampleWindow._windowDims with xp := -7 }) ∧
    (∃ s', exampleWindow.onOffsetYChanged "-7" = .ok s' ∧
      s'._windowDims = { exampleWindow._windowDims with yp := -7 }) :=
  ⟨by decide, by decide, by decide,
    C2_offset_handlers_keep_size exampleWindow "-7" (-7) (by decide) (by decide) (by decide)⟩

/-- C3: for every window state and every text from which `std::stoi` reads no integer
(it throws), in particular the text `-`, both offset handlers return normally and leave
the window rectangle unchanged; when the text is not empty they leave the whole state
unchanged. -/
theorem C3_offset_handlers_ignore_unparsable (s : WindowControl) (T : String) (e : Failure)
    (hT : stoi T = .error e) :
    (∃ s', s.onOffsetXChanged T = .ok s' ∧ s'._windowDims = s._windowDims) ∧
    (∃ s', s.onOffsetYChanged T = .ok s' ∧ s'._windowDims = s._windowDims) ∧
    (T.isEmpty = false → s.onOffsetXChanged T = .ok s ∧ s.onOffsetYChanged T = .ok s) := by
  obtain ⟨c, hc, hcn⟩ := onOffsetXChanged_error s T e hT
  obtain ⟨c', hc', hcn'⟩ := onOffsetYChanged_error s T e hT
  refine ⟨⟨_, hc, rfl⟩, ⟨_, hc', rfl⟩, fun hne => ⟨?_, ?_⟩⟩
  · rw [hc, hcn hne]
  · rw [hc', hcn' hne]

/-- Witness of C3: the text `-` on the example window. -/
theorem C3_offset_handlers_ignore_unparsable_witness :
    stoi "-" = .error .invalid_argument ∧
    (∃ s', exampleWindow.onOffsetXChanged "-" = .ok s' ∧
      s'._windowDims = exampleWindow._windowDims) ∧
    (∃ s', exampleWindow.onOffsetYChanged "-" = .ok s' ∧
      s'._windowDims = exampleWindow._windowDims) ∧
    exampleWindow.onOffsetXChanged "-" = .ok exampleWindow :=
  ⟨by decide,
    (C3_offset_handlers_ignore_unparsable exampleWindow "-" .invalid_argument (by decide)).1,
    (C3_offset_handlers_ignore_unparsable exampleWindow "-" .invalid_argument (by decide)).2.1,
    ((C3_offset_handlers_ignore_unparsable exampleWindow "-" .invalid_argument
      (by decide)).2.2 (by decide)).1⟩

/-- C4: for every window state whose monitor index selects an entry `r` of the monitor
resolution list, `onFullscreenClicked` returns normally, and afterwards the offset that
`windowPos` reports is `(0, 0)`, the size that `windowSize` reports is the width and
height of `r`, and the window is not decorated, whatever they were before. When the line
edits agreed with the rectangle before the click, and a `float` holds the width and the
height of `r`, the window rectangle too is `(0, 0, width, height)`. -/
theorem C4_fullscreen_fills_selected_monitor (s : WindowControl) (r : QRect)
    (hr : s._monitorResolutions[s._monIndex]? = some r) :
    ∃ s', s.onFullscreenClicked = .ok s' ∧
      s'.windowPos = .ok (0, 0) ∧
      s'.windowSize = .ok (r.width, r.height) ∧
      s'.isDecorated = false ∧
      (s.textsAgree → floatExact r.width → floatExact r.height →
        s'._windowDims = ⟨0, 0, r.width, r.height⟩) := by
  have h0 : stoi "0" = .ok 0 := by decide
  have hW := stoi_number r.width r.width_int.1 r.width_int.2
  have hH := stoi_number r.height r.height_int.1 r.height_int.2
  obtain ⟨c, hc⟩ := onFullscreenClicked_ok s r hr
  refine ⟨_, hc, ?_, ?_, rfl, ?_⟩
  · simp [WindowControl.windowPos, h0, bind, Except.bind, pure, Except.pure]
  · simp [WindowControl.windowSize, hW, hH, bind, Except.bind, pure, Except.pure]
  · rintro ⟨ax, ay, aw, ah⟩ fw fh
    unfold floatExact at fw fh
    rcases hd : s._windowDims with ⟨x, y, w, h⟩
    rw [hd] at ax ay aw ah
    simp only
    by_cases hx : s._offset_x = "0" <;> by_cases hy : s._offset_y = "0" <;>
      by_cases hw : s._size_x = number r.width <;> by_cases hh : s._size_y = number r.height
    all_goals
      try (rw [hx, h0] at ax; obtain rfl := Except.ok.inj ax)
      try (rw [hy, h0] at ay; obtain rfl := Except.ok.inj ay)
      try (rw [hw, hW] at aw; obtain rfl := Except.ok.inj aw)
      try (rw [hh, hH] at ah; obtain rfl := Except.ok.inj ah)
      simp [hx, hy, hw, hh, QRectF.setX, QRectF.setY, QRectF.setWidth, QRectF.setHeight,
        fw, fh]

/-- Witness of C4: the example window, on the example monitor of 1920 by 1080. -/
theorem C4_fullscreen_fills_selected_monitor_witness :
    exampleWindow._monitorResolutions[exampleWindow._monIndex]? = some exampleMonitor ∧
    exampleWindow.textsAgree ∧ floatExact exampleMonitor.width ∧
    floatExact exampleMonitor.height ∧
    ∃ s', exampleWindow.onFullscreenClicked = .ok s' ∧
      s'.windowPos = .ok (0, 0) ∧
      s'.windowSize = .ok (1920, 1080) ∧
      s'.isDecorated = false ∧
      s'._windowDims = ⟨0, 0, 1920, 1080⟩ :=
  ⟨rfl, by decide, by decide, by decide,
    (C4_fullscreen_fills_selected_monitor exampleWindow exampleMonitor rfl).imp
      fun _ h => ⟨h.1, h.2.1, h.2.2.1, h.2.2.2.1,
        h.2.2.2.2 (by decide) (by decide) (by decide)⟩⟩


/-- C5: when `onSpoutSelection` runs with the checked state and the current projection is
neither Fisheye nor Equirectangular (in particular when it is Planar), the projection
afterwards is Equirectangular, Equirectangular being an item of the combo box; when the
current projection is Fisheye or Equirectangular already, or when the state passed is not
the checked one, the slot leaves the projection, and all the state, unchanged. -/
theorem C5_spout_selection_forces_equirectangular (P : ProjectionIndeces)
    (s : WindowControl) :
    (s.projectionSelectedIndex ≠ P.Fisheye → s.projectionSelectedIndex ≠ P.Equirectangular →
      0 ≤ P.Equirectangular → P.Equirectangular < s._comboProjection.count →
      (s.onSpoutSelection P CheckState.Checked.toInt).projectionSelectedIndex
        = P.Equirectangular) ∧
    (s.projectionSelectedIndex = P.Planar → P.Planar ≠ P.Fisheye →
      P.Planar ≠ P.Equirectangular →
      0 ≤ P.Equirectangular → P.Equirectangular < s._comboProjection.count →
      (s.onSpoutSelection P CheckState.Checked.toInt).projectionSelectedIndex
        = P.Equirectangular) ∧
    (s.projectionSelectedIndex = P.Fisheye ∨ s.projectionSelectedIndex = P.Equirectangular →
      s.onSpoutSelection P CheckState.Checked.toInt = s) ∧
    (∀ selectionState : Int, selectionState ≠ CheckState.Checked.toInt →
      s.onSpoutSelection P selectionState = s) := by
  have main : s.projectionSelectedIndex ≠ P.Fisheye →
      s.projectionSelectedIndex ≠ P.Equirectangular →
      0 ≤ P.Equirectangular → P.Equirectangular < s._comboProjection.count →
      (s.onSpoutSelection P CheckState.Checked.toInt).projectionSelectedIndex
        = P.Equirectangular := by
    intro hF hE h0 hlt
    simp only [WindowControl.projectionSelectedIndex] at hF hE
    have hn : s._comboProjection.normalize P.Equirectangular = P.Equirectangular := by
      simp [QComboBox.normalize, h0, hlt]
    simp [WindowControl.onSpoutSelection, WindowControl.setProjectionIndex,
      WindowControl.projectionSelectedIndex, WindowControl.onProjectionChanged, hF, hE, hn,
      Ne.symm hE]
  refine ⟨main, ?_, ?_, ?_⟩
  · intro hP hPF hPE h0 hlt
    exact main (by rw [hP]; exact hPF) (by rw [hP]; exact hPE) h0 hlt
  · intro h
    simp only [WindowControl.projectionSelectedIndex] at h
    rcases h with h | h <;> simp [WindowControl.onSpoutSelection, h]
  · intro st hst
    simp [WindowControl.onSpoutSelection, hst]

/-- Witness of C5: the example window, whose projection is Planar, with the enumerators
of the example header. -/
theorem C5_spout_selection_forces_equirectangular_witness :
    exampleWindow.projectionSelectedIndex = exampleHeader.projectionIndeces.Planar ∧
    (exampleWindow.onSpoutSelection exampleHeader.projectionIndeces
      CheckState.Checked.toInt).projectionSelectedIndex
        = exampleHeader.projectionIndeces.Equirectangular ∧
    exampleWindow.onSpoutSelection exampleHeader.projectionIndeces
      CheckState.Unchecked.toInt = exampleWindow :=
  ⟨rfl,
    (C5_spout_selection_forces_equirectangular exampleHeader.projectionIndeces
      exampleWindow).2.1 rfl (by decide) (by decide) (by decide) (by decide),
    (C5_spout_selection_forces_equirectangular exampleHeader.projectionIndeces
      exampleWindow).2.2.2 _ (by decide)⟩

/-- C6, evaluated on the code: in the display that `Display::Display` builds, checking
the GUI window box of the first window control and then that of the second leaves both
flags set. `Display::addWindowControl` registers the window change callback only, so
`onWebGuiSelection` finds no GUI callback to call and nothing unchecks the first box. -/
theorem C6_gui_flag_set_on_both_windows :
    Display.new exampleHeader 1 0 [exampleMonitor] = .ok exampleDisplay ∧
    (exampleDisplay.clickWebGui 0 .Checked).guiWindows = [true, false] ∧
    ((exampleDisplay.clickWebGui 0 .Checked).clickWebGui 1 .Checked).guiWindows
      = [true, true] ∧
    exampleDisplay._windowControl.map (fun w => w._windowGuiCheckCallback)
      = [false, false] :=
  ⟨rfl, rfl, rfl, rfl⟩

/-- C7: for every display whose two wrapper widgets are laid out (the constructor
leaves them so, and `toggleWindows` keeps them), `toggleWindows` returns normally and
changes no window control, hence no field of either configuration; and starting with two
windows displayed, toggling to one window and back to two leaves the window controls, the
second one included, exactly as they were. -/
theorem C7_toggle_keeps_window_controls (d : Display) :
    (∀ (hdr : WindowControlHeader) (nMonitors monitorIndex : Nat) (monitorRes : List QRect),
      Display.new hdr nMonitors monitorIndex monitorRes = .ok d →
      1 < d._layoutWindowWrappers.length) ∧
    (1 < d._layoutWindowWrappers.length →
      ∃ d', d.toggleWindows = .ok d' ∧ d'._windowControl = d._windowControl ∧
        d'.configuration = d.configuration ∧ 1 < d'._layoutWindowWrappers.length) ∧
    (1 < d._layoutWindowWrappers.length → d._nWindowsDisplayed = 2 →
      ∃ d1 d2, d.toggleWindows = .ok d1 ∧ d1._nWindowsDisplayed = 1 ∧
        d1.toggleWindows = .ok d2 ∧ d2._nWindowsDisplayed = 2 ∧
        d2._windowControl = d._windowControl ∧ d2.configuration = d.configuration) := by
  refine ⟨?_, ?_, ?_⟩
  · intro hdr nMonitors monitorIndex monitorRes hnew
    obtain ⟨_, _, c, _⟩ := new_spec hdr nMonitors monitorIndex monitorRes d hnew
    omega
  · intro h
    by_cases h1 : d._nWindowsDisplayed = 1
    · exact ⟨_, toggleWindows_one d h h1, rfl, rfl, by simpa using h⟩
    · by_cases h2 : d._nWindowsDisplayed = 2
      · exact ⟨_, toggleWindows_two d h h2, rfl, rfl, by simpa using h⟩
      · refine ⟨d, ?_, rfl, rfl, h⟩
        simp [Display.toggleWindows, h1, h2, pure, Except.pure]
  · intro h h2
    have e1 := toggleWindows_two d h h2
    have e2 := toggleWindows_one _ (by simpa using h)
      (rfl : ({ d with
        _toggleNumMonitorsButton := "Add 2nd window"
        _borderFrame := false
        _layoutWindowWrappers := d._layoutWindowWrappers.set 1 false
        _nWindowsDisplayed := 1
        _monBox := { d._monBox with numWindowsDisplayed := 1 } } : Display)._nWindowsDisplayed
          = 1)
    exact ⟨_, _, e1, rfl, e2, rfl, rfl, rfl⟩

/-- Witness of C7: the example display showing two windows, the second of width 777. -/
theorem C7_toggle_keeps_window_controls_witness :
    Display.new exampleHeader 1 0 [exampleMonitor] = .ok exampleDisplay ∧
    1 < exampleDisplay._layoutWindowWrappers.length ∧
    1 < exampleDisplayTwo._layoutWindowWrappers.length ∧
    exampleDisplayTwo._nWindowsDisplayed = 2 ∧
    exampleDisplayTwo._windowControl.map (fun w => w._windowDims.w) = [1280, 777] ∧
    ∃ d1 d2, exampleDisplayTwo.toggleWindows = .ok d1 ∧ d1._nWindowsDisplayed = 1 ∧
      d1.toggleWindows = .ok d2 ∧ d2._nWindowsDisplayed = 2 ∧
      d2._windowControl = exampleDisplayTwo._windowControl ∧
      d2.configuration = exampleDisplayTwo.configuration :=
  ⟨rfl,
    (C7_toggle_keeps_window_controls exampleDisplay).1 exampleHeader 1 0 [exampleMonitor] rfl,
    by decide, rfl, rfl,
    (C7_toggle_keeps_window_controls exampleDisplayTwo).2.2 (by decide) rfl⟩

/-- C8: on a display that has two window controls allocated, `addWindowControl` is a
no-op: it returns the display as it was, so the count stays 2 and the list of window
controls is unchanged. The constructor, which calls it twice, leaves exactly two allocated,
and any further number of calls after it leaves the display as constructed. -/
theorem C8_addWindowControl_noop_at_two (d : Display) :
    (d._nWindowsAllocated = 2 →
      d.addWindowControl = .ok d ∧ ∀ n, d.addWindowControlTimes n = .ok d) ∧
    (∀ (hdr : WindowControlHeader) (nMonitors monitorIndex : Nat) (monitorRes : List QRect),
      Display.new hdr nMonitors monitorIndex monitorRes = .ok d →
      d._nWindowsAllocated = 2 ∧ d._windowControl.length = 2 ∧
      ∀ n, d.addWindowControlTimes n = .ok d) := by
  have step : d._nWindowsAllocated = 2 → d.addWindowControl = .ok d := by
    intro h
    simp [Display.addWindowControl, h, pure, Except.pure]
  have many : d._nWindowsAllocated = 2 → ∀ n, d.addWindowControlTimes n = .ok d := by
    intro h n
    induction n with
    | zero => rfl
    | succ n ih =>
      simp only [Display.addWindowControlTimes, step h, bind, Except.bind]
      exact ih
  refine ⟨fun h => ⟨step h, many h⟩, ?_⟩
  intro hdr nMonitors monitorIndex monitorRes hnew
  obtain ⟨a, b, _⟩ := new_spec hdr nMonitors monitorIndex monitorRes d hnew
  exact ⟨a, b, many a⟩

/-- Witness of C8: the example display, which `Display::Display` builds. -/
theorem C8_addWindowControl_noop_at_two_witness :
    exampleDisplay._nWindowsAllocated = 2 ∧
    Display.new exampleHeader 1 0 [exampleMonitor] = .ok exampleDisplay ∧
    exampleDisplay.addWindowControl = .ok exampleDisplay ∧
    exampleDisplay._windowControl.length = 2 ∧
    exampleDisplay.addWindowControlTimes 3 = .ok exampleDisplay :=
  ⟨rfl, rfl,
    ((C8_addWindowControl_noop_at_two exampleDisplay).1 rfl).1,
    ((C8_addWindowControl_noop_at_two exampleDisplay).2 exampleHeader 1 0 [exampleMonitor]
      rfl).2.1,
    ((C8_addWindowControl_noop_at_two exampleDisplay).2 exampleHeader 1 0 [exampleMonitor]
      rfl).2.2 3⟩

/-- C9, evaluated on the code: the size handlers let the exception of `std::stoi` out.
With the text `+` (a lone sign), `abc` or `-` they fail with `std::invalid_argument`, and
with digits too large for an `int` with `std::out_of_range`; the offset handlers return
normally on the same texts and leave the state as it was. -/
theorem C9_size_handlers_raise :
    exampleWindow.onSizeXChanged "+" = .error .invalid_argument ∧
    exampleWindow.onSizeYChanged "+" = .error .invalid_argument ∧
    exampleWindow.onSizeXChanged "abc" = .error .invalid_argument ∧
    exampleWindow.onSizeYChanged "-" = .error .invalid_argument ∧
    exampleWindow.onSizeXChanged "99999999999" = .error .out_of_range ∧
    exampleWindow.onOffsetXChanged "+" = .ok exampleWindow ∧
    exampleWindow.onOffsetYChanged "abc" = .ok exampleWindow ∧
    exampleWindow.onOffsetXChanged "99999999999" = .ok exampleWindow :=
  ⟨rfl, rfl, rfl, rfl, rfl, rfl, rfl, rfl⟩

/-- C10, as the claim states it, fails: from the initial state of the example window the
user chooses Fisheye, checks the spout box (it is visible then), and chooses Planar. The
state reached has the spout flag set and the projection Planar: `onProjectionChanged`
hides the spout check box and does not uncheck it. -/
theorem C10_counterexample :
    WindowControl.initial exampleHeader 1 0 0 [exampleMonitor] = .ok exampleInitial ∧
    WindowControl.ReachableByProjectionAndSpout exampleHeader.projectionIndeces exampleInitial
      (((exampleInitial.setProjectionIndex exampleHeader.projectionIndeces 1).setSpoutCheckState
        exampleHeader.projectionIndeces .Checked).setProjectionIndex
          exampleHeader.projectionIndeces 0) ∧
    (((exampleInitial.setProjectionIndex exampleHeader.projectionIndeces 1).setSpoutCheckState
      exampleHeader.projectionIndeces .Checked).setProjectionIndex
        exampleHeader.projectionIndeces 0).isSpoutSelected = true ∧
    (((exampleInitial.setProjectionIndex exampleHeader.projectionIndeces 1).setSpoutCheckState
      exampleHeader.projectionIndeces .Checked).setProjectionIndex
        exampleHeader.projectionIndeces 0).projectionSelectedIndex = 0 ∧
    exampleHeader.projectionIndeces.Planar = 0 ∧
    exampleHeader.projectionIndeces.Fisheye = 1 ∧
    exampleHeader.projectionIndeces.Equirectangular = 4 :=
  ⟨rfl, .projection _ _ (.spout _ _ (.projection _ _ .start)), rfl, rfl, rfl, rfl, rfl⟩

/-- C10, amended: in every state that a window control reaches from its initial state by
choices of a projection and clicks on the spout check box (Equirectangular being an item
of the combo box), if the spout flag is set and the spout check box is visible, then the
projection is Fisheye or Equirectangular; the check box is visible exactly when the
projection is one of these two; and a click that sets the flag leaves the flag set and
the projection Fisheye or Equirectangular. -/
theorem C10_spout_flag_with_visible_box (hdr : WindowControlHeader)
    (nMonitors monitorIndex windowIndex : Nat) (monitorDims : List QRect)
    (s0 s : WindowControl)
    (hE : 0 ≤ hdr.projectionIndeces.Equirectangular ∧
      hdr.projectionIndeces.Equirectangular < hdr._projectionTypes)
    (h0 : WindowControl.initial hdr nMonitors monitorIndex windowIndex monitorDims = .ok s0)
    (hs : WindowControl.ReachableByProjectionAndSpout hdr.projectionIndeces s0 s) :
    (s.isSpoutSelected = true → s.visible._checkBoxSpoutOutput = true →
      s.projectionSelectedIndex = hdr.projectionIndeces.Fisheye ∨
      s.projectionSelectedIndex = hdr.projectionIndeces.Equirectangular) ∧
    (s.visible._checkBoxSpoutOutput = true ↔
      (s.projectionSelectedIndex = hdr.projectionIndeces.Fisheye ∨
        s.projectionSelectedIndex = hdr.projectionIndeces.Equirectangular)) ∧
    (s.isSpoutSelected = false →
      (s.setSpoutCheckState hdr.projectionIndeces .Checked).isSpoutSelected = true ∧
      ((s.setSpoutCheckState hdr.projectionIndeces .Checked).projectionSelectedIndex
          = hdr.projectionIndeces.Fisheye ∨
        (s.setSpoutCheckState hdr.projectionIndeces .Checked).projectionSelectedIndex
          = hdr.projectionIndeces.Equirectangular)) := by
  have hn : 0 < hdr._projectionTypes := by
    have := hE.1
    have := hE.2
    omega
  have inv := reachable_spoutBoxFollowsProjection hdr.projectionIndeces hdr._projectionTypes
    s0 s (spoutBoxFollowsProjection_initial hdr nMonitors monitorIndex windowIndex monitorDims
      s0 hn h0) hs
  have vis : s.visible._checkBoxSpoutOutput = true ↔
      (s.projectionSelectedIndex = hdr.projectionIndeces.Fisheye ∨
        s.projectionSelectedIndex = hdr.projectionIndeces.Equirectangular) := by
    rw [inv.2]
    simp [WindowControl.projectionSelectedIndex]
  refine ⟨fun _ hv => vis.mp hv, vis, fun hu => ?_⟩
  exact setSpoutCheckState_checked hdr.projectionIndeces s (by rw [inv.1]; exact hE) hu

/-- Witness of the amended C10: the example header, and the state that the example window
reaches when the user chooses Fisheye and checks the spout box. -/
theorem C10_spout_flag_with_visible_box_witness :
    (0 ≤ exampleHeader.projectionIndeces.Equirectangular ∧
      exampleHeader.projectionIndeces.Equirectangular < exampleHeader._projectionTypes) ∧
    WindowControl.initial exampleHeader 1 0 0 [exampleMonitor] = .ok exampleInitial ∧
    ((exampleInitial.setProjectionIndex exampleHeader.projectionIndeces 1).setSpoutCheckState
      exampleHeader.projectionIndeces .Checked).isSpoutSelected = true ∧
    ((exampleInitial.setProjectionIndex exampleHeader.projectionIndeces 1).setSpoutCheckState
      exampleHeader.projectionIndeces .Checked).visible._checkBoxSpoutOutput = true ∧
    (((exampleInitial.setProjectionIndex exampleHeader.projectionIndeces 1).setSpoutCheckState
        exampleHeader.projectionIndeces .Checked).projectionSelectedIndex
        = exampleHeader.projectionIndeces.Fisheye ∨
      ((exampleInitial.setProjectionIndex exampleHeader.projectionIndeces 1).setSpoutCheckState
        exampleHeader.projectionIndeces .Checked).projectionSelectedIndex
        = exampleHeader.projectionIndeces.Equirectangular) :=
  ⟨by decide, rfl, rfl, rfl,
    (C10_spout_flag_with_visible_box exampleHeader 1 0 0 [exampleMonitor] exampleInitial
      ((exampleInitial.setProjectionIndex exampleHeader.projectionIndeces 1).setSpoutCheckState
        exampleHeader.projectionIndeces .Checked)
      (by decide) rfl (.spout _ _ (.projection _ _ .start))).1 rfl rfl⟩

/-- C11, evaluated on the code: the text `5` is an integer text that `onSizeXChanged`
accepts, and the state it leaves has the width 5, below the floor of 10. So it is when the
user types `5` into the width field of a window just constructed: the rectangle gets the
width 5, the callback reports it, and `windowSize()` returns 5. The handler stores what
`std::stoi` reads and checks no range. -/
theorem C11_size_handler_stores_below_floor :
    stoi "5" = .ok 5 ∧
    exampleWindow.onSizeXChanged "5" = .ok narrowWindow ∧
    WindowControl.ReachableBySizeHandlers INT_MIN INT_MAX exampleWindow narrowWindow ∧
    narrowWindow._windowDims.w = 5 ∧ narrowWindow._windowDims.w < 10 ∧
    narrowWindow.windowChangeCalls = [(0, 0, ⟨50, 50, 5, 720⟩)] ∧
    WindowControl.initial exampleHeader 1 0 0 [exampleMonitor] = .ok exampleInitial ∧
    (exampleInitial.setSizeXText "5").map (fun s => (s._windowDims.w, s.windowSize))
      = .ok (5, .ok (5, 720)) :=
  ⟨by decide, rfl, .sizeX exampleWindow narrowWindow "5" 5 .start (by decide) (by decide)
    (by decide) rfl, rfl, by decide, rfl, rfl, rfl⟩

/-- C12: the display built by `Display::Display` shows one window; in every state reached
from it (by `toggleWindows`, by events in the window controls, by clicks on the GUI check
boxes, by `addWindowControl`) the number of windows displayed is 1 or 2 and is the number
last passed to the monitor box; and in every such state `toggleWindows` returns normally
and changes the number from 1 to 2 or from 2 to 1. -/
theorem C12_window_count_state_machine (hdr : WindowControlHeader)
    (nMonitors monitorIndex : Nat) (monitorRes : List QRect) (d0 d : Display)
    (h0 : Display.new hdr nMonitors monitorIndex monitorRes = .ok d0)
    (hd : Display.Reachable d0 d) :
    d0._nWindowsDisplayed = 1 ∧
    (d._nWindowsDisplayed = 1 ∨ d._nWindowsDisplayed = 2) ∧
    d._monBox.numWindowsDisplayed = d._nWindowsDisplayed ∧
    ∃ d', d.toggleWindows = .ok d' ∧
      (d._nWindowsDisplayed = 1 → d'._nWindowsDisplayed = 2) ∧
      (d._nWindowsDisplayed = 2 → d'._nWindowsDisplayed = 1) ∧
      d'._monBox.numWindowsDisplayed = d'._nWindowsDisplayed := by
  obtain ⟨_, _, _, e0, _⟩ := new_spec hdr nMonitors monitorIndex monitorRes d0 h0
  obtain ⟨hw, hn, hm⟩ := reachable_countInvariant d0 d
    (countInvariant_new hdr nMonitors monitorIndex monitorRes d0 h0) hd
  refine ⟨e0, hn, hm, ?_⟩
  have hex : ∃ d', d.toggleWindows = .ok d' := by
    rcases hn with h1 | h2
    · exact ⟨_, toggleWindows_one d hw h1⟩
    · exact ⟨_, toggleWindows_two d hw h2⟩
  obtain ⟨d', ht⟩ := hex
  obtain ⟨_, b, c, e⟩ := toggleWindows_frame d d' ht hw hn
  exact ⟨d', ht, b, c, e⟩

/-- Witness of C12: the example display, and the state it reaches when the second window
is shown and its width edited to 777. -/
theorem C12_window_count_state_machine_witness :
    Display.new exampleHeader 1 0 [exampleMonitor] = .ok exampleDisplay ∧
    Display.Reachable exampleDisplay exampleDisplayTwo ∧
    exampleDisplay._nWindowsDisplayed = 1 ∧
    (exampleDisplayTwo._nWindowsDisplayed = 1 ∨ exampleDisplayTwo._nWindowsDisplayed = 2) ∧
    exampleDisplayTwo._monBox.numWindowsDisplayed = exampleDisplayTwo._nWindowsDisplayed ∧
    ∃ d', exampleDisplayTwo.toggleWindows = .ok d' ∧
      (exampleDisplayTwo._nWindowsDisplayed = 1 → d'._nWindowsDisplayed = 2) ∧
      (exampleDisplayTwo._nWindowsDisplayed = 2 → d'._nWindowsDisplayed = 1) ∧
      d'._monBox.numWindowsDisplayed = d'._nWindowsDisplayed :=
  ⟨rfl,
    .window _ _ 1 (fun w => w.setSizeXText "777") (.toggle exampleDisplay _ .start rfl) rfl,
    C12_window_count_state_machine exampleHeader 1 0 [exampleMonitor] exampleDisplay
      exampleDisplayTwo rfl
      (.window _ _ 1 (fun w => w.setSizeXText "777") (.toggle exampleDisplay _ .start rfl) rfl)⟩

/-- C13: for every projection selection `p` (and every value of the enumerators), after
`onProjectionChanged(p)` the quality combo box and its label are visible exactly when `p`
is not Planar, the horizontal and vertical FOV fields and their labels exactly when `p`
is Planar, the height offset field and its label exactly when `p` is Cylindrical, and the
spout check box exactly when `p` is Fisheye or Equirectangular; the slot changes nothing
but these visibilities. -/
theorem C13_projection_visibility_table (P : ProjectionIndeces) (s : WindowControl)
    (p : Int) :
    ((s.onProjectionChanged P p).visible._comboQuality = true ↔ p ≠ P.Planar) ∧
    ((s.onProjectionChanged P p).visible._labelQuality = true ↔ p ≠ P.Planar) ∧
    ((s.onProjectionChanged P p).visible._labelFovH = true ↔ p = P.Planar) ∧
    ((s.onProjectionChanged P p).visible._lineFovH = true ↔ p = P.Planar) ∧
    ((s.onProjectionChanged P p).visible._labelFovV = true ↔ p = P.Planar) ∧
    ((s.onProjectionChanged P p).visible._lineFovV = true ↔ p = P.Planar) ∧
    ((s.onProjectionChanged P p).visible._labelHeightOffset = true ↔ p = P.Cylindrical) ∧
    ((s.onProjectionChanged P p).visible._lineHeightOffset = true ↔ p = P.Cylindrical) ∧
    ((s.onProjectionChanged P p).visible._checkBoxSpoutOutput = true ↔
      (p = P.Fisheye ∨ p = P.Equirectangular)) ∧
    (∃ v, s.onProjectionChanged P p = { s with visible := v }) := by
  refine ⟨?_, ?_, ?_, ?_, ?_, ?_, ?_, ?_, ?_, _, rfl⟩ <;>
    simp [WindowControl.onProjectionChanged]

/-- C14: for every window state and every index `i` (a natural number that an `int`
holds), `onMonitorChanged(i)` makes `monitorNum()` return `i` and leaves the window
rectangle unchanged; when a change callback is registered it is called once, with the
monitor index `i`, the index of this window and the unchanged rectangle, and when none is
registered no call is made. -/
theorem C14_monitor_changed (s : WindowControl) (i : Nat) (hi : (i : Int) ≤ INT_MAX) :
    (s.onMonitorChanged i).monitorNum = i ∧
    (s.onMonitorChanged i)._windowDims = s._windowDims ∧
    (s._windowChangeCallback = true →
      (s.onMonitorChanged i).windowChangeCalls =
        s.windowChangeCalls ++ [((i : Int), toSigned s._index, s._windowDims)]) ∧
    (s._windowChangeCallback = false →
      (s.onMonitorChanged i).windowChangeCalls = s.windowChangeCalls) := by
  have hu : toUnsigned (i : Int) = i := by
    unfold toUnsigned
    unfold INT_MAX at hi
    omega
  have hs : toSigned i = (i : Int) := by
    unfold toSigned
    unfold INT_MAX at hi
    split <;> omega
  refine ⟨?_, ?_, ?_, ?_⟩
  · unfold WindowControl.onMonitorChanged WindowControl.callWindowChangeCallback
      WindowControl.monitorNum
    split <;> exact hu
  · unfold WindowControl.onMonitorChanged WindowControl.callWindowChangeCallback
    split <;> rfl
  · intro hcb
    simp [WindowControl.onMonitorChanged, WindowControl.callWindowChangeCallback, hcb, hu, hs]
  · intro hcb
    simp [WindowControl.onMonitorChanged, WindowControl.callWindowChangeCallback, hcb]

/-- Witness of C14: the monitor index 1 on the example window, which has a callback. -/
theorem C14_monitor_changed_witness :
    ((1 : Nat) : Int) ≤ INT_MAX ∧
    (exampleWindow.onMonitorChanged (1 : Nat)).monitorNum = 1 ∧
    (exampleWindow.onMonitorChanged (1 : Nat))._windowDims = exampleWindow._windowDims ∧
    (exampleWindow.onMonitorChanged (1 : Nat)).windowChangeCalls
      = [(1, 0, ⟨50, 50, 1280, 720⟩)] :=
  ⟨by decide,
    (C14_monitor_changed exampleWindow 1 (by decide)).1,
    (C14_monitor_changed exampleWindow 1 (by decide)).2.1,
    (C14_monitor_changed exampleWindow 1 (by decide)).2.2.1 rfl⟩

/-- C15: for every window state, `onSizeXChanged` and `onSizeYChanged` called with the
empty text return normally and change nothing but the record of calls to the change
callback: the window rectangle, the monitor index and every other value of the
configuration are as before. -/
theorem C15_size_handlers_ignore_empty_text (s : WindowControl) :
    (∃ s', s.onSizeXChanged "" = .ok s' ∧ s'._windowDims = s._windowDims ∧
      s'._monIndex = s._monIndex ∧
      ∃ c, s' = { s with windowChangeCalls := c }) ∧
    (∃ s', s.onSizeYChanged "" = .ok s' ∧ s'._windowDims = s._windowDims ∧
      s'._monIndex = s._monIndex ∧
      ∃ c, s' = { s with windowChangeCalls := c }) := by
  obtain ⟨c, hc⟩ := callWindowChangeCallback_shape s
  have hX : s.onSizeXChanged "" = .ok s.callWindowChangeCallback := rfl
  have hY : s.onSizeYChanged "" = .ok s.callWindowChangeCallback := rfl
  refine ⟨⟨_, hX, ?_, ?_, c, hc⟩, ⟨_, hY, ?_, ?_, c, hc⟩⟩ <;> rw [hc]

/-- C16, evaluated on the code: the user empties the width field of the example window
(the handler ignores the empty text, the rectangle keeps the width 1280), and
`windowSize()` fails with `std::invalid_argument`, since it calls `std::stoi` on the empty
text; likewise `windowPos()` fails after the x offset field was edited to a lone `-`. -/
theorem C16_accessors_raise :
    WindowControl.initial exampleHeader 1 0 0 [exampleMonitor] = .ok exampleInitial ∧
    exampleInitial.setSizeXText "" = .ok { exampleInitial with _size_x := "" } ∧
    ({ exampleInitial with _size_x := "" } : WindowControl)._windowDims.w = 1280 ∧
    ({ exampleInitial with _size_x := "" } : WindowControl).windowSize
      = .error .invalid_argument ∧
    exampleInitial.setOffsetXText "-" = .ok { exampleInitial with _offset_x := "-" } ∧
    ({ exampleInitial with _offset_x := "-" } : WindowControl)._windowDims.xp = 50 ∧
    ({ exampleInitial with _offset_x := "-" } : WindowControl).windowPos
      = .error .invalid_argument :=
  ⟨rfl, rfl, rfl, rfl, rfl, rfl, rfl⟩

/-- C17: in every state of a window control reached from construction with a monitor
index below the monitor count, through any sequence of its operations (the choice of any
item of the combo box of monitors included, from which alone `onMonitorChanged` gets its
index, and which is hidden when there is one monitor only), the monitor index is below the
monitor count, so that the lookup of the selected monitor's resolution is within the list
and `onFullscreenClicked` returns normally. The combo box is filled from `_monitorNames`
of the header, which is not among the sources: when it is shown it is taken to have no
more items than there are monitor resolutions. -/
theorem C17_monitor_index_within_resolutions (hdr : WindowControlHeader)
    (nMonitors monitorIndex windowIndex : Nat) (monitorDims : List QRect)
    (s0 s : WindowControl) (hm : monitorIndex < monitorDims.length)
    (hnames : 1 < nMonitors → hdr._monitorNames ≤ monitorDims.length)
    (h0 : WindowControl.initial hdr nMonitors monitorIndex windowIndex monitorDims = .ok s0)
    (hs : WindowControl.ReachableByOperations hdr.projectionIndeces s0 s) :
    s._monitorResolutions = monitorDims ∧ s._monIndex < monitorDims.length ∧
    (nMonitors ≤ 1 → s._comboMonitorSelectVisible = false) ∧
    (∃ r, s.selectedMonitorResolution = .ok r) ∧
    ∃ s', s.onFullscreenClicked = .ok s' := by
  have inv : s._monitorResolutions = monitorDims ∧ s._monIndex < monitorDims.length ∧
      s._comboMonitorSelect.count = hdr._monitorNames ∧
      (s._comboMonitorSelectVisible = true → 1 < nMonitors) := by
    induction hs with
    | start =>
      obtain ⟨a, b, c, d⟩ := initial_monitorSetup hdr nMonitors monitorIndex windowIndex
        monitorDims s0 h0
      exact ⟨b, by rw [a]; exact hm, c, d⟩
    | step s s' _ hop ih =>
      exact operation_monitorSetup hdr.projectionIndeces hdr nMonitors monitorDims s s'
        hnames hop ih
  have hlt : s._monIndex < s._monitorResolutions.length := by rw [inv.1]; exact inv.2.1
  have hr : s._monitorResolutions[s._monIndex]? = some (s._monitorResolutions[s._monIndex]) :=
    List.getElem?_eq_getElem hlt
  refine ⟨inv.1, inv.2.1, ?_, ?_, ?_⟩
  · intro h1
    cases hv : s._comboMonitorSelectVisible
    · rfl
    · have := inv.2.2.2 hv
      omega
  · exact ⟨_, by simp only [WindowControl.selectedMonitorResolution, hr]; rfl⟩
  · obtain ⟨c, hc⟩ := onFullscreenClicked_ok s _ hr
    exact ⟨_, hc⟩

/-- Witness of C17: the example window constructed for two monitors, after the user
chose the second monitor in the combo box. -/
theorem C17_monitor_index_within_resolutions_witness :
    0 < [exampleMonitor, exampleMonitor].length ∧
    exampleHeader._monitorNames ≤ [exampleMonitor, exampleMonitor].length ∧
    WindowControl.initial exampleHeader 2 0 0 [exampleMonitor, exampleMonitor]
      = .ok exampleTwoMonitors ∧
    (exampleTwoMonitors.setMonitorIndex 1)._monIndex = 1 ∧
    (exampleTwoMonitors.setMonitorIndex 1)._monitorResolutions
      = [exampleMonitor, exampleMonitor] ∧
    (exampleTwoMonitors.setMonitorIndex 1)._monIndex
      < [exampleMonitor, exampleMonitor].length ∧
    ∃ s', (exampleTwoMonitors.setMonitorIndex 1).onFullscreenClicked = .ok s' :=
  ⟨by decide, by decide, rfl, rfl,
    (C17_monitor_index_within_resolutions exampleHeader 2 0 0
      [exampleMonitor, exampleMonitor] exampleTwoMonitors
      (exampleTwoMonitors.setMonitorIndex 1) (by decide) (fun _ => by decide) rfl
      (.step _ _ .start (.monitor 1 rfl (by decide) (by decide)))).1,
    (C17_monitor_index_within_resolutions exampleHeader 2 0 0
      [exampleMonitor, exampleMonitor] exampleTwoMonitors
      (exampleTwoMonitors.setMonitorIndex 1) (by decide) (fun _ => by decide) rfl
      (.step _ _ .start (.monitor 1 rfl (by decide) (by decide)))).2.1,
    (C17_monitor_index_within_resolutions exampleHeader 2 0 0
      [exampleMonitor, exampleMonitor] exampleTwoMonitors
      (exampleTwoMonitors.setMonitorIndex 1) (by decide) (fun _ => by decide) rfl
      (.step _ _ .start (.monitor 1 rfl (by decide) (by decide)))).2.2.2.2⟩

/-- C18: with a change callback registered, every call of a size or offset handler with
a text that `std::stoi` reads, and every call of the monitor handler, returns normally
with exactly one more call of the callback recorded, made with the monitor index, the
index of this window and the window rectangle of the state that the handler returns; so
the rectangle last delivered is the current rectangle. In a display, where the callback
hands the rectangle to the monitor box, the rectangle last delivered to the monitor box
is then the current rectangle of that window control. -/
theorem C18_callback_once_with_current_rectangle (s : WindowControl)
    (hcb : s._windowChangeCallback = true) :
    (∀ (T : String) (v : Int), stoi T = .ok v →
      (∃ s', s.onSizeXChanged T = .ok s' ∧ s'._windowDims.w = v ∧
        s'.windowChangeCalls = s.windowChangeCalls ++
          [(toSigned s'._monIndex, toSigned s'._index, s'._windowDims)]) ∧
      (∃ s', s.onSizeYChanged T = .ok s' ∧ s'._windowDims.h = v ∧
        s'.windowChangeCalls = s.windowChangeCalls ++
          [(toSigned s'._monIndex, toSigned s'._index, s'._windowDims)]) ∧
      (∃ s', s.onOffsetXChanged T = .ok s' ∧ s'._windowDims.xp = v ∧
        s'.windowChangeCalls = s.windowChangeCalls ++
          [(toSigned s'._monIndex, toSigned s'._index, s'._windowDims)]) ∧
      (∃ s', s.onOffsetYChanged T = .ok s' ∧ s'._windowDims.yp = v ∧
        s'.windowChangeCalls = s.windowChangeCalls ++
          [(toSigned s'._monIndex, toSigned s'._index, s'._windowDims)])) ∧
    (∀ i : Int,
      (s.onMonitorChanged i)._monIndex = toUnsigned i ∧
      (s.onMonitorChanged i).windowChangeCalls = s.windowChangeCalls ++
        [(toSigned (s.onMonitorChanged i)._monIndex, toSigned (s.onMonitorChanged i)._index,
          (s.onMonitorChanged i)._windowDims)]) ∧
    (∀ (d : Display) (n : Nat) (event : WindowControl → Except Failure WindowControl)
      (s' : WindowControl), d._windowControl[n]? = some s → event s = .ok s' →
      s'.windowChangeCalls = s.windowChangeCalls ++
        [(toSigned s'._monIndex, toSigned s'._index, s'._windowDims)] →
      ∃ d', d.inWindow n event = .ok d' ∧ d'._windowControl[n]? = some s' ∧
        d'._monBox.windowRects.getLast? = some (toSigned s'._index, s'._windowDims)) := by
  refine ⟨?_, ?_, ?_⟩
  · intro T v hT
    exact ⟨⟨_, onSizeXChanged_registered s T v hcb hT, rfl, rfl⟩,
      ⟨_, onSizeYChanged_registered s T v hcb hT, rfl, rfl⟩,
      ⟨_, onOffsetXChanged_registered s T v hcb hT, by simp [QRectF.setX, QRectF.setWidth],
        rfl⟩,
      ⟨_, onOffsetYChanged_registered s T v hcb hT, by simp [QRectF.setY, QRectF.setHeight],
        rfl⟩⟩
  · intro i
    unfold WindowControl.onMonitorChanged
    rw [callWindowChangeCallback_registered { s with _monIndex := toUnsigned i } hcb]
    exact ⟨rfl, rfl⟩
  · intro d n event s' hw he hc
    obtain ⟨d', h1, h2, h3⟩ := inWindow_delivers d n event s s' hw he hc
    exact ⟨d', h1, h2, by rw [h3]; simp⟩

/-- Witness of C18: the text `777` given to `onSizeXChanged` on the example window, which
has a callback registered. -/
theorem C18_callback_once_with_current_rectangle_witness :
    exampleWindow._windowChangeCallback = true ∧ stoi "777" = .ok 777 ∧
    ∃ s', exampleWindow.onSizeXChanged "777" = .ok s' ∧ s'._windowDims.w = 777 ∧
      s'.windowChangeCalls = exampleWindow.windowChangeCalls ++
        [(toSigned s'._monIndex, toSigned s'._index, s'._windowDims)] :=
  ⟨rfl, by decide,
    ((C18_callback_once_with_current_rectangle exampleWindow rfl).1 "777" 777
      (by decide)).1⟩

/-- C19: for every string `name`, `createIdentifier(name)` is the string that the claim
words: every space replaced by `_` and every `.` by `-`, then every double quote and
apostrophe deleted, the other characters kept in their order. The result contains no
space, no `.`, no double quote and no apostrophe, and is no longer than `name`. -/
theorem C19_createIdentifier (name : String) :
    exoplanets.createIdentifier name = exoplanets.identifierAsClaimed name ∧
    ' ' ∉ (exoplanets.createIdentifier name).toList ∧
    '.' ∉ (exoplanets.createIdentifier name).toList ∧
    exoplanets.doubleQuote ∉ (exoplanets.createIdentifier name).toList ∧
    exoplanets.apostrophe ∉ (exoplanets.createIdentifier name).toList ∧
    (exoplanets.createIdentifier name).length ≤ name.length ∧
    List.Sublist (exoplanets.createIdentifier name).toList
      (name.toList.map fun c => if c = ' ' then '_' else if c = '.' then '-' else c) := by
  have hmap : ∀ l : List Char,
      (l.map fun c => if c = ' ' then '_' else c).map (fun c => if c = '.' then '-' else c)
        = l.map fun c => if c = ' ' then '_' else if c = '.' then '-' else c := by
    intro l
    rw [List.map_map]
    apply List.map_congr_left
    intro c _
    by_cases h : c = ' '
    · subst h; decide
    · simp [h]
  have heq : exoplanets.createIdentifier name = exoplanets.identifierAsClaimed name := by
    simp only [exoplanets.createIdentifier, exoplanets.sanitizeNameString,
      exoplanets.eraseRemove, exoplanets.replace, exoplanets.identifierAsClaimed,
      String.toList, hmap, List.filter_filter]
    congr 1
    apply List.filter_congr
    intro c _
    exact Bool.and_comm _ _
  have hlist : (exoplanets.createIdentifier name).toList =
      (name.toList.map fun c => if c = ' ' then '_' else if c = '.' then '-' else c).filter
        fun c => c != exoplanets.doubleQuote && c != exoplanets.apostrophe := by
    rw [heq]; rfl
  refine ⟨heq, ?_, ?_, ?_, ?_, ?_, ?_⟩
  · rw [hlist]
    intro h
    obtain ⟨c, _, hc⟩ := List.mem_map.mp (List.mem_filter.mp h).1
    by_cases h1 : c = ' '
    · rw [if_pos h1] at hc; exact absurd hc (by decide)
    · rw [if_neg h1] at hc
      by_cases h2 : c = '.'
      · rw [if_pos h2] at hc; exact absurd hc (by decide)
      · rw [if_neg h2] at hc; exact h1 hc
  · rw [hlist]
    intro h
    obtain ⟨c, _, hc⟩ := List.mem_map.mp (List.mem_filter.mp h).1
    by_cases h1 : c = ' '
    · rw [if_pos h1] at hc; exact absurd hc (by decide)
    · rw [if_neg h1] at hc
      by_cases h2 : c = '.'
      · rw [if_pos h2] at hc; exact absurd hc (by decide)
      · rw [if_neg h2] at hc; exact h2 hc
  · rw [hlist]
    intro h
    have := (List.mem_filter.mp h).2
    simp at this
  · rw [hlist]
    intro h
    have := (List.mem_filter.mp h).2
    simp at this
  · show (exoplanets.createIdentifier name).toList.length ≤ name.toList.length
    rw [hlist]
    exact (List.length_filter_le _ _).trans (by simp)
  · rw [hlist]
    exact List.filter_sublist _

/-- C20: with the coefficients read as exact rationals, for every effective temperature
from 2000 to 8000 the effective flux of the inner boundary is greater than that of the
outer boundary and both are positive, so that for every positive luminosity the square of
the inner distance is positive (the distance is defined) and the inner distance is smaller
than the outer distance; for a temperature outside that range and a luminosity that is
not negative, the inner distance `sqrt(L / 1.1)` is no greater than the outer distance
`sqrt(L / 0.53)`. -/
theorem C20_habitable_zone_inner_before_outer (teff luminosity : ℚ) :
    (2000 ≤ teff → teff ≤ 8000 →
      0 < exoplanets.seff exoplanets.maximumGreenhouse (teff - 5780) ∧
      exoplanets.seff exoplanets.maximumGreenhouse (teff - 5780)
        < exoplanets.seff exoplanets.runawayGreenhouse (teff - 5780) ∧
      (0 < luminosity →
        0 < (exoplanets.computeHabitableZoneSquared teff luminosity).1 ∧
        (exoplanets.computeHabitableZoneSquared teff luminosity).1
          < (exoplanets.computeHabitableZoneSquared teff luminosity).2 ∧
        Real.sqrt ((exoplanets.computeHabitableZoneSquared teff luminosity).1 : ℝ)
          < Real.sqrt ((exoplanets.computeHabitableZoneSquared teff luminosity).2 : ℝ))) ∧
    ((teff > 8000 ∨ teff < 2000) → 0 ≤ luminosity →
      exoplanets.computeHabitableZoneSquared teff luminosity
        = (luminosity / 1.1, luminosity / 0.53) ∧
      0 ≤ (exoplanets.computeHabitableZoneSquared teff luminosity).1 ∧
      (exoplanets.computeHabitableZoneSquared teff luminosity).1
        ≤ (exoplanets.computeHabitableZoneSquared teff luminosity).2 ∧
      Real.sqrt ((exoplanets.computeHabitableZoneSquared teff luminosity).1 : ℝ)
        ≤ Real.sqrt ((exoplanets.computeHabitableZoneSquared teff luminosity).2 : ℝ)) := by
  constructor
  · intro hlo hhi
    have hout := seff_maximumGreenhouse_pos (teff - 5780) (by linarith) (by linarith)
    have hlt := seff_maximumGreenhouse_lt_runawayGreenhouse (teff - 5780) (by linarith)
      (by linarith)
    have hin : 0 < exoplanets.seff exoplanets.runawayGreenhouse (teff - 5780) :=
      lt_trans hout hlt
    refine ⟨hout, hlt, fun hL => ?_⟩
    have hbranch : ¬ (teff > 8000 ∨ teff < 2000) := by
      intro h
      rcases h with h | h <;> linarith
    have hz : exoplanets.computeHabitableZoneSquared teff luminosity =
        (luminosity / exoplanets.seff exoplanets.runawayGreenhouse (teff - 5780),
          luminosity / exoplanets.seff exoplanets.maximumGreenhouse (teff - 5780)) := by
      simp only [exoplanets.computeHabitableZoneSquared, hbranch, if_false]
    rw [hz]
    have h1 : 0 < luminosity / exoplanets.seff exoplanets.runawayGreenhouse (teff - 5780) :=
      div_pos hL hin
    have h2 : luminosity / exoplanets.seff exoplanets.runawayGreenhouse (teff - 5780)
        < luminosity / exoplanets.seff exoplanets.maximumGreenhouse (teff - 5780) :=
      div_lt_div_of_pos_left hL hout hlt
    refine ⟨h1, h2, ?_⟩
    exact Real.sqrt_lt_sqrt (by exact_mod_cast h1.le) (by exact_mod_cast h2)
  · intro hbranch hL
    have hz : exoplanets.computeHabitableZoneSquared teff luminosity =
        (luminosity / 1.1, luminosity / 0.53) := by
      simp only [exoplanets.computeHabitableZoneSquared, hbranch, if_true]
    rw [hz]
    have h1 : (0 : ℚ) ≤ luminosity / 1.1 := div_nonneg hL (by norm_num)
    have h2 : luminosity / 1.1 ≤ luminosity / 0.53 :=
      div_le_div_of_nonneg_left hL (by norm_num) (by norm_num)
    refine ⟨rfl, h1, h2, ?_⟩
    exact Real.sqrt_le_sqrt (by exact_mod_cast h2)

/-- Witness of C20: the Sun's temperature 5780 and luminosity 1, and the temperature
9000 with luminosity 1. -/
theorem C20_habitable_zone_inner_before_outer_witness :
    ((2000 : ℚ) ≤ 5780 ∧ (5780 : ℚ) ≤ 8000 ∧ (0 : ℚ) < 1 ∧
      Real.sqrt ((exoplanets.computeHabitableZoneSquared 5780 1).1 : ℝ)
        < Real.sqrt ((exoplanets.computeHabitableZoneSquared 5780 1).2 : ℝ)) ∧
    (((9000 : ℚ) > 8000 ∨ (9000 : ℚ) < 2000) ∧ (0 : ℚ) ≤ 1 ∧
      Real.sqrt ((exoplanets.computeHabitableZoneSquared 9000 1).1 : ℝ)
        ≤ Real.sqrt ((exoplanets.computeHabitableZoneSquared 9000 1).2 : ℝ)) :=
  ⟨⟨by norm_num, by norm_num, by norm_num,
      (((C20_habitable_zone_inner_before_outer 5780 1).1 (by norm_num) (by norm_num)).2.2
        (by norm_num)).2.2⟩,
    ⟨Or.inl (by norm_num), by norm_num,
      ((C20_habitable_zone_inner_before_outer 9000 1).2 (Or.inl (by norm_num))
        (by norm_num)).2.2.2⟩⟩

end OpenSpace
